import Mathlib

/-!
# Verification of the `rust-image-decoder` baseline JPEG core

This file gives a shallow embedding, in Lean 4, of the JPEG decoding core of
the `rust-image-decoder` repository (files `jpeg_reader.rs`, `header.rs`,
`jpeg_core.rs`, `bitstream.rs`), and proves or refutes the specification
claims about it.

Modelling conventions:

* Bytes and machine words are `Nat`; wherever 16-bit signed (`i16`) overflow
  can matter the embedding reduces through `wrap16` (two's-complement
  wrap-around, i.e. release-mode Rust semantics), and shift amounts are
  masked by the bit width as Rust does in release mode.
* Rust `Result<T, Error>` becomes `Except Err`; code that can also panic
  (slice indexing out of bounds, `Option::unwrap` on `None`, division by
  zero, the `panic!` branch of `Macroblock::get_component`) is embedded in
  the `Outcome` monad, which distinguishes a `panic` (with a label naming
  the panic site) from a returned `Error` value.
* The byte cursor of `JPEGParser` is a list of bytes together with an
  absolute position.
* Rust `while` loops whose variant is not structural are given explicit
  fuel; every caller passes fuel that is provably sufficient (at least one
  input byte or bit is consumed per iteration), and fuel exhaustion is a
  distinguished `internalError "out of fuel"` that honest executions never
  reach.
* The floating-point 8x8 inverse DCT and the floating-point YCbCr->RGB
  conversion are uninterpreted parameters of the embedding: no claim
  below depends on the numeric values they produce, only on the control
  flow and buffer shapes around them.
-/

set_option maxRecDepth 4000

namespace ImageDecoder

-- Decidable equality of `Except` results, for concrete evaluations.
deriving instance DecidableEq for Except

/-- The error type of `error.rs` (the `Io` case carries no payload we need). -/
inductive Err : Type where
  | malformed : String → Err
  | unsupportedFeature : String → Err
  | internalError : String → Err
  deriving Repr, DecidableEq

/-- Result of running embedded Rust code: a value, a returned `Error`, or a
panic.  The panic label names the panic site in the source. -/
inductive Outcome (α : Type) : Type where
  | ok : α → Outcome α
  | err : Err → Outcome α
  | panic : String → Outcome α
  deriving Repr, DecidableEq

def Outcome.bind {α β : Type} : Outcome α → (α → Outcome β) → Outcome β
  | .ok a, f => f a
  | .err e, _ => .err e
  | .panic s, _ => .panic s

instance : Monad Outcome where
  pure := .ok
  bind := Outcome.bind

/-- Lift a `Result` (`Except Err`) computation into panic-aware code
(the `?` operator on a `Result` in a function that can also panic). -/
def Outcome.ofExcept {α : Type} : Except Err α → Outcome α
  | .ok a => .ok a
  | .error e => .err e

@[simp] theorem Outcome.bind_ok {α β : Type} (a : α) (f : α → Outcome β) :
    Outcome.bind (.ok a) f = f a := rfl

@[simp] theorem Outcome.bind_err {α β : Type} (e : Err) (f : α → Outcome β) :
    Outcome.bind (.err e) f = .err e := rfl

@[simp] theorem Outcome.bind_panic {α β : Type} (s : String) (f : α → Outcome β) :
    Outcome.bind (.panic s) f = .panic s := rfl

/-! ## Markers (`jpeg_reader.rs`, enum `JPEGMarker`) -/

/-- The `JPEGMarker` enum.  Note that the discriminants of `RESERVED1` through
`RESERVED13` in the source are `0xFF1 ..= 0xFFD` (three hex digits), not
`0xFFF1 ..= 0xFFFD`. -/
inductive JPEGMarker : Type where
  | APP0 | APP1 | APP2 | APP3 | APP4 | APP5 | APP6 | APP7
  | APP8 | APP9 | APP10 | APP11 | APP12 | APP13 | APP14 | APP15
  | RESERVED1 | RESERVED2 | RESERVED3 | RESERVED4 | RESERVED5 | RESERVED6
  | RESERVED7 | RESERVED8 | RESERVED9 | RESERVED10 | RESERVED11 | RESERVED12
  | RESERVED13
  | RST0 | RST1 | RST2 | RST3 | RST4 | RST5 | RST6 | RST7
  | DHP | EXP
  | DHT | DQT | EOI | RST | SOF0 | SOI | SOS | COM
  deriving Repr, DecidableEq

/-- Discriminant value of each `JPEGMarker` variant, exactly as written in the
source (`#[derive(PartialEq, PartialOrd, ...)]` on a fieldless enum compares
these values). -/
def JPEGMarker.val : JPEGMarker → Nat
  | .APP0 => 0xFFE0 | .APP1 => 0xFFE1 | .APP2 => 0xFFE2 | .APP3 => 0xFFE3
  | .APP4 => 0xFFE4 | .APP5 => 0xFFE5 | .APP6 => 0xFFE6 | .APP7 => 0xFFE7
  | .APP8 => 0xFFE8 | .APP9 => 0xFFE9 | .APP10 => 0xFFEA | .APP11 => 0xFFEB
  | .APP12 => 0xFFEC | .APP13 => 0xFFED | .APP14 => 0xFFEE | .APP15 => 0xFFEF
  | .RESERVED1 => 0xFF1 | .RESERVED2 => 0xFF2 | .RESERVED3 => 0xFF3
  | .RESERVED4 => 0xFF4 | .RESERVED5 => 0xFF5 | .RESERVED6 => 0xFF6
  | .RESERVED7 => 0xFF7 | .RESERVED8 => 0xFF8 | .RESERVED9 => 0xFF9
  | .RESERVED10 => 0xFFA | .RESERVED11 => 0xFFB | .RESERVED12 => 0xFFC
  | .RESERVED13 => 0xFFD
  | .RST0 => 0xFFD0 | .RST1 => 0xFFD1 | .RST2 => 0xFFD2 | .RST3 => 0xFFD3
  | .RST4 => 0xFFD4 | .RST5 => 0xFFD5 | .RST6 => 0xFFD6 | .RST7 => 0xFFD7
  | .DHP => 0xFFDE | .EXP => 0xFFDF
  | .DHT => 0xFFC4 | .DQT => 0xFFDB | .EOI => 0xFFD9 | .RST => 0xFFDD
  | .SOF0 => 0xFFC0 | .SOI => 0xFFD8 | .SOS => 0xFFDA | .COM => 0xFFFE

/-- `num_traits::FromPrimitive::from_u16` for `JPEGMarker`: the variant whose
discriminant equals the word, if any. -/
def markerFromU16 (w : Nat) : Option JPEGMarker :=
  match w with
  | 0xFFE0 => some .APP0 | 0xFFE1 => some .APP1 | 0xFFE2 => some .APP2
  | 0xFFE3 => some .APP3 | 0xFFE4 => some .APP4 | 0xFFE5 => some .APP5
  | 0xFFE6 => some .APP6 | 0xFFE7 => some .APP7 | 0xFFE8 => some .APP8
  | 0xFFE9 => some .APP9 | 0xFFEA => some .APP10 | 0xFFEB => some .APP11
  | 0xFFEC => some .APP12 | 0xFFED => some .APP13 | 0xFFEE => some .APP14
  | 0xFFEF => some .APP15
  | 0xFF1 => some .RESERVED1 | 0xFF2 => some .RESERVED2
  | 0xFF3 => some .RESERVED3 | 0xFF4 => some .RESERVED4
  | 0xFF5 => some .RESERVED5 | 0xFF6 => some .RESERVED6
  | 0xFF7 => some .RESERVED7 | 0xFF8 => some .RESERVED8
  | 0xFF9 => some .RESERVED9 | 0xFFA => some .RESERVED10
  | 0xFFB => some .RESERVED11 | 0xFFC => some .RESERVED12
  | 0xFFD => some .RESERVED13
  | 0xFFD0 => some .RST0 | 0xFFD1 => some .RST1 | 0xFFD2 => some .RST2
  | 0xFFD3 => some .RST3 | 0xFFD4 => some .RST4 | 0xFFD5 => some .RST5
  | 0xFFD6 => some .RST6 | 0xFFD7 => some .RST7
  | 0xFFDE => some .DHP | 0xFFDF => some .EXP
  | 0xFFC4 => some .DHT | 0xFFDB => some .DQT | 0xFFD9 => some .EOI
  | 0xFFDD => some .RST | 0xFFC0 => some .SOF0 | 0xFFD8 => some .SOI
  | 0xFFDA => some .SOS | 0xFFFE => some .COM
  | _ => none

/-- `JPEGParser::to_marker`.  The range tests compare enum discriminants, as
Rust's derived `PartialOrd` does. -/
def toMarker (word : Nat) : Except Err JPEGMarker :=
  match markerFromU16 word with
  | some marker =>
    if JPEGMarker.RESERVED1.val ≤ marker.val ∧ marker.val ≤ JPEGMarker.RESERVED13.val then
      .ok marker
    else if JPEGMarker.RST0.val ≤ marker.val ∧ marker.val ≤ JPEGMarker.RST7.val then
      .ok marker
    else if JPEGMarker.APP0.val ≤ marker.val ∧ marker.val ≤ JPEGMarker.APP15.val then
      .ok marker
    else
      match marker with
      | .COM | .DHP | .EXP | .EOI | .DHT | .DQT | .RST | .SOF0 | .SOI | .SOS =>
        .ok marker
      | _ =>
        .error (.malformed "Marker not supported. Newly added marker may need to be implemented.")
  | none => .error (.malformed "Marker not supported")

/-! ## The byte cursor (`JPEGParser`) -/

/-- `JPEGParser`: a `Cursor` over the input bytes.  `pos` may run past
`data.length` (as a Rust `Cursor` position may); reads then fail. -/
structure Parser : Type where
  data : List Nat
  pos : Nat
  deriving Repr, DecidableEq

/-- `JPEGParser::read_next_byte`. -/
def readNextByte (p : Parser) : Except Err (Nat × Parser) :=
  match p.data.get? p.pos with
  | some b => .ok (b, { p with pos := p.pos + 1 })
  | none => .error (.malformed "Unexpected end of input")

/-- `JPEGParser::read_next_word` (big-endian `u16`). -/
def readNextWord (p : Parser) : Except Err (Nat × Parser) := do
  let (hi, p) ← readNextByte p
  let (lo, p) ← readNextByte p
  .ok (hi * 256 + lo, p)

/-- The `loop` inside `JPEGParser::read_next_marker`, entered when the first
word was `0xFFFF`.  `word` is the (unchanged) first word; the source compares
it against `0xFF`, which can never hold — the comparison is kept verbatim.
Fuel bounds the iterations; each iteration consumes one input byte, so
`p.data.length + 1` fuel is always enough. -/
def markerFillLoop (word : Nat) : Nat → Parser → Except Err (JPEGMarker × Parser)
  | 0, _ => .error (.internalError "out of fuel")
  | fuel + 1, p =>
    match readNextByte p with
    | .error e => .error e
    | .ok (next, p') =>
      if next = 0x00 then
        .error (.malformed "Invalid JPEG file")
      else if word = 0xFF then
        match toMarker (0xFF00 ||| next) with
        | .ok marker => .ok (marker, p')
        | .error msg => .error msg
      else
        markerFillLoop word fuel p'

/-- `JPEGParser::read_next_marker`. -/
def readNextMarker (p : Parser) : Except Err (JPEGMarker × Parser) := do
  let (word, p') ← readNextWord p
  match toMarker word with
  | .error _ =>
    if word ≠ 0xFFFF then
      .error (.malformed "Invalid JPEG file")
    else
      markerFillLoop word (p'.data.length + 1) p'
  | .ok marker => .ok (marker, p')

/-- `JPEGParser::skip_marker_with_length`.  `read_next_word()? - 2` is `u16`
subtraction (wrap-around in release mode); the subsequent `Cursor::seek` by a
non-negative offset always succeeds. -/
def skipMarkerWithLength (p : Parser) : Except Err Parser := do
  let (w, p') ← readNextWord p
  let byteLength := (w + 65534) % 65536
  .ok { p' with pos := p'.pos + byteLength }

/-- `JPEGParser::position`. -/
def Parser.position (p : Parser) : Nat := p.pos

/-! ## Header data model (`header.rs`) -/

inductive HuffmanTableType : Type where
  | Ac | Dc
  deriving Repr, DecidableEq

/-- `HuffmanTable`.  `bitcode_counts` is a 16-element array in the source;
the embedding keeps it as a list (indexed reads use `getD _ 0`, which agrees
with the array for length-16 lists). -/
structure HuffmanTable : Type where
  table_type : HuffmanTableType
  destination_id : Nat
  bitcode_counts : List Nat
  symbols : List Nat
  codes : List Nat
  deriving Repr, DecidableEq

inductive QuantizationTableType : Type where
  | Luma | Chroma
  deriving Repr, DecidableEq

/-- `QuantizationTable`; `table` is the un-zig-zagged 8x8 `u16` matrix. -/
structure QuantizationTable : Type where
  table_type : QuantizationTableType
  precision : Nat
  destination_id : Nat
  table : List (List Nat)
  deriving Repr, DecidableEq

structure FrameComponent : Type where
  identifier : Nat
  xy_sampling_factor : Nat × Nat
  qtable_id : Nat
  deriving Repr, DecidableEq

structure ScanComponent : Type where
  selector : Nat
  dc_table : Nat
  ac_table : Nat
  deriving Repr, DecidableEq

structure Component : Type where
  frame : FrameComponent
  scan : ScanComponent
  deriving Repr, DecidableEq

structure ScanInfo : Type where
  components : List ScanComponent
  spectral_selection : Nat × Nat
  successive_approximation : Nat
  deriving Repr, DecidableEq

structure FrameInfo : Type where
  precision : Nat
  image_size : Nat × Nat
  padded_size : Nat × Nat
  components : List FrameComponent
  deriving Repr, DecidableEq

structure MCUInfo : Type where
  max_xy_sampling_factor : Nat × Nat
  mcu_size : Nat × Nat
  mcu_dimensions : Nat × Nat
  mcu_padded_dimensions : Nat × Nat
  deriving Repr, DecidableEq

/-- `HeaderInfo`.  The `HashMap`s keyed by destination id are embedded as
association lists: `insert` is prepend, `extend` is append-on-the-left, and
lookup (`List.lookup`) finds the most recent binding, which reproduces the
`HashMap` overwrite behaviour. -/
structure HeaderInfo : Type where
  frame_info : FrameInfo
  scan_info : ScanInfo
  components : List Component
  ac_huff_tables : List (Nat × HuffmanTable)
  dc_huff_tables : List (Nat × HuffmanTable)
  quant_tables : List (Nat × QuantizationTable)
  header_length : Nat
  mcu_info : MCUInfo
  deriving Repr, DecidableEq

/-- `Default::default()` for `HeaderInfo` (all fields empty / zero;
`HuffmanTableType::default()` is `Ac` but no default table is ever read). -/
def HeaderInfo.empty : HeaderInfo where
  frame_info := ⟨0, (0, 0), (0, 0), []⟩
  scan_info := ⟨[], (0, 0), 0⟩
  components := []
  ac_huff_tables := []
  dc_huff_tables := []
  quant_tables := []
  header_length := 0
  mcu_info := ⟨(0, 0), (0, 0), (0, 0), (0, 0)⟩

/-! ## Canonical Huffman code generation (`HuffmanTable::generate_codes`) -/

/-- The body of `HuffmanTable::generate_codes`, starting from a running code
value `code < 2^16` (`u16` in the source; `+ 1` and `<<= 1` wrap). -/
def generateCodesAux (code : Nat) : List Nat → List Nat
  | [] => []
  | code_count :: rest =>
    (List.range code_count).map (fun j => (code + j) % 65536) ++
      generateCodesAux ((((code + code_count) % 65536) * 2) % 65536) rest

/-- `HuffmanTable::generate_codes`: the `codes` vector produced from
`bitcode_counts`, with the running code starting at 0. -/
def generate_codes (bitcode_counts : List Nat) : List Nat :=
  generateCodesAux 0 bitcode_counts

/-- Specification-side recurrence for the canonicity law: the first canonical
code of bit length `i + 1` when generation starts from the running value
`code` — `firstCodeFrom code counts (i+1) = 2 · (firstCodeFrom code counts i
+ counts[i])`. -/
def firstCodeFrom (code : Nat) (counts : List Nat) : Nat → Nat
  | 0 => code
  | i + 1 => 2 * (firstCodeFrom code counts i + counts.getD i 0)

/-- The spec's first-code recurrence with generation starting at 0:
`firstCode counts i` is the stated first code of bit length `i + 1`. -/
def firstCode (counts : List Nat) : Nat → Nat := firstCodeFrom 0 counts

/-! ## Segment parsers (`header.rs`) -/

/-- The per-component read loop of `HeaderInfo::read_start_of_frame`. -/
def readFrameComponents : Nat → List FrameComponent → Parser →
    Except Err (List FrameComponent × Parser)
  | 0, acc, p => .ok (acc, p)
  | n + 1, acc, p => do
    let (identifier, p) ← readNextByte p
    if acc.any (fun c => c.identifier = identifier) then
      .error (.malformed "Duplicate component identifier")
    else do
      let (sample_factors, p) ← readNextByte p
      let xy_sampling_factor := (sample_factors / 16, sample_factors % 16)
      let (qtable_id, p) ← readNextByte p
      readFrameComponents n (acc ++ [⟨identifier, xy_sampling_factor, qtable_id⟩]) p

/-- `HeaderInfo::read_start_of_frame`.  Note: the precision byte is read and
stored but never validated. -/
def readStartOfFrame (p : Parser) : Except Err (FrameInfo × Parser) := do
  let (_struct_size, p) ← readNextWord p
  let (precision, p) ← readNextByte p
  let (height, p) ← readNextWord p
  let (width, p) ← readNextWord p
  let (component_count, p) ← readNextByte p
  let (components, p) ← readFrameComponents component_count [] p
  .ok (⟨precision, (width, height), (0, 0), components⟩, p)

/-- The fixed 64-entry zig-zag order (`ZIGZAG_MAP` in `jpeg_core.rs`). -/
def ZIGZAG_MAP : List (Nat × Nat) :=
  [(0, 0), (0, 1), (1, 0), (2, 0), (1, 1), (0, 2), (0, 3), (1, 2),
   (2, 1), (3, 0), (4, 0), (3, 1), (2, 2), (1, 3), (0, 4), (0, 5),
   (1, 4), (2, 3), (3, 2), (4, 1), (5, 0), (6, 0), (5, 1), (4, 2),
   (3, 3), (2, 4), (1, 5), (0, 6), (0, 7), (1, 6), (2, 5), (3, 4),
   (4, 3), (5, 2), (6, 1), (7, 0), (7, 1), (6, 2), (5, 3), (4, 4),
   (3, 5), (2, 6), (1, 7), (2, 7), (3, 6), (4, 5), (5, 4), (6, 3),
   (7, 2), (7, 3), (6, 4), (5, 5), (4, 6), (3, 7), (4, 7), (5, 6),
   (6, 5), (7, 4), (7, 5), (6, 6), (5, 7), (6, 7), (7, 6), (7, 7)]

/-- Write `v` at `[r][c]` of a grid of lists (`grid[r][c] = v` on Rust fixed
arrays; all uses are in bounds). -/
def set2 {α : Type} (g : List (List α)) (r c : Nat) (v : α) : List (List α) :=
  g.set r ((g.getD r []).set c v)

/-- The un-zig-zag step of `read_quantization_tables`: scatter the 64 values
into an 8x8 matrix using `ZIGZAG_MAP`. -/
def unzigzag (zagged : List Nat) : List (List Nat) :=
  (List.range 64).foldl
    (fun table i =>
      let rc := ZIGZAG_MAP.getD i (0, 0)
      set2 table rc.1 rc.2 (zagged.getD i 0))
    (List.replicate 8 (List.replicate 8 0))

/-- The 64-entry read loop of one quantization table (8-bit or 16-bit entries
per the precision nibble). -/
def readQuantEntries : Nat → Nat → List Nat → Parser → Except Err (List Nat × Parser)
  | 0, _, acc, p => .ok (acc, p)
  | n + 1, precision, acc, p =>
    match precision with
    | 0 => do
      let (b, p) ← readNextByte p
      readQuantEntries n 0 (acc ++ [b]) p
    | 1 => do
      let (w, p) ← readNextWord p
      readQuantEntries n 1 (acc ++ [w]) p
    | _ => .error (.malformed "Invalid precision value")

/-- The `while reader.position() != end_of_table` loop of
`read_quantization_tables`. -/
def readQuantTablesLoop : Nat → Nat → List (Nat × QuantizationTable) → Parser →
    Except Err (List (Nat × QuantizationTable) × Parser)
  | 0, _, _, _ => .error (.internalError "out of fuel")
  | fuel + 1, endPos, quant_tables, p =>
    if p.position ≠ endPos then do
      let (table_info, p) ← readNextByte p
      let precision := table_info / 16
      let destination_id := table_info % 16
      let table_type ← match destination_id with
        | 0 => Except.ok QuantizationTableType.Luma
        | 1 => Except.ok QuantizationTableType.Chroma
        | _ => Except.error (Err.unsupportedFeature "Unsupported quantization table type")
      let (zagged_table, p) ← readQuantEntries 64 precision [] p
      let unzagged_table := unzigzag zagged_table
      readQuantTablesLoop fuel endPos
        ((destination_id, ⟨table_type, precision, destination_id, unzagged_table⟩) :: quant_tables) p
    else .ok (quant_tables, p)

/-- `HeaderInfo::read_quantization_tables`. -/
def readQuantizationTables (p : Parser) : Except Err (List (Nat × QuantizationTable) × Parser) := do
  let (w, p) ← readNextWord p
  let struct_size := (w + 65534) % 65536
  readQuantTablesLoop (p.data.length + 1) (p.position + struct_size) [] p

/-- Read `n` bytes into a list (the count/symbol read loops of
`read_huffman_tables`). -/
def readBytesN : Nat → List Nat → Parser → Except Err (List Nat × Parser)
  | 0, acc, p => .ok (acc, p)
  | n + 1, acc, p => do
    let (b, p) ← readNextByte p
    readBytesN n (acc ++ [b]) p

/-- The `while reader.position() != end_of_table` loop of
`read_huffman_tables`, accumulating the AC and DC tables. -/
def readHuffTablesLoop : Nat → Nat → List (Nat × HuffmanTable) → List (Nat × HuffmanTable) →
    Parser → Except Err ((List (Nat × HuffmanTable) × List (Nat × HuffmanTable)) × Parser)
  | 0, _, _, _, _ => .error (.internalError "out of fuel")
  | fuel + 1, endPos, ac_tables, dc_tables, p =>
    if p.position ≠ endPos then do
      let (table_info, p) ← readNextByte p
      let table_type ← match table_info / 16 with
        | 0 => Except.ok HuffmanTableType.Dc
        | 1 => Except.ok HuffmanTableType.Ac
        | _ => Except.error (Err.malformed "Invalid table type")
      let destination_id := table_info % 16
      let (bitcode_counts, p) ← readBytesN 16 [] p
      let size := bitcode_counts.foldl (fun total elem => total + elem) 0
      let (symbols, p) ← readBytesN size [] p
      let table : HuffmanTable :=
        ⟨table_type, destination_id, bitcode_counts, symbols, generate_codes bitcode_counts⟩
      match table.table_type with
      | .Ac => readHuffTablesLoop fuel endPos ((destination_id, table) :: ac_tables) dc_tables p
      | .Dc => readHuffTablesLoop fuel endPos ac_tables ((destination_id, table) :: dc_tables) p
    else .ok ((ac_tables, dc_tables), p)

/-- `HeaderInfo::read_huffman_tables`. -/
def readHuffmanTables (p : Parser) :
    Except Err ((List (Nat × HuffmanTable) × List (Nat × HuffmanTable)) × Parser) := do
  let (w, p) ← readNextWord p
  let struct_size := (w + 65534) % 65536
  readHuffTablesLoop (p.data.length + 1) (p.position + struct_size) [] [] p

/-- The per-component read loop of `read_start_of_scan`. -/
def readScanComponents : Nat → List ScanComponent → Parser →
    Except Err (List ScanComponent × Parser)
  | 0, acc, p => .ok (acc, p)
  | n + 1, acc, p => do
    let (selector, p) ← readNextByte p
    let (tables, p) ← readNextByte p
    readScanComponents n (acc ++ [⟨selector, tables / 16, tables % 16⟩]) p

/-- `HeaderInfo::read_start_of_scan`.  Note: neither the spectral selection
bytes nor the successive approximation byte are validated. -/
def readStartOfScan (p : Parser) : Except Err (ScanInfo × Parser) := do
  let (_struct_size, p) ← readNextWord p
  let (component_count, p) ← readNextByte p
  let (components, p) ← readScanComponents component_count [] p
  let (spectral_selection_start, p) ← readNextByte p
  let (spectral_selection_end, p) ← readNextByte p
  let (successive_approximation, p) ← readNextByte p
  .ok (⟨components, (spectral_selection_start, spectral_selection_end),
        successive_approximation⟩, p)

/-- `fn pad` at the bottom of `header.rs` (`u16` arithmetic, hence the
wrap-around reduction). -/
def pad (unpadded : Nat × Nat) (block_size : Nat × Nat) : Nat × Nat :=
  let r0 := unpadded.1 % block_size.1
  let p0 := if r0 = 0 then unpadded.1 else (unpadded.1 + block_size.1 - r0) % 65536
  let r1 := unpadded.2 % block_size.2
  let p1 := if r1 = 0 then unpadded.2 else (unpadded.2 + block_size.2 - r1) % 65536
  (p0, p1)

/-- The `fold` computing `(Hmax, Vmax)` over the frame components. -/
def maxSamplingFold (components : List FrameComponent) : Nat × Nat :=
  components.foldl
    (fun m component =>
      (max component.xy_sampling_factor.1 m.1, max component.xy_sampling_factor.2 m.2))
    (0, 0)

/-- The `JPEGMarker::SOS` arm of `read_header_info`: scan header, MCU
geometry, and frame/scan component pairing.  The divisions and `pad`'s
remainders panic in Rust when `mcu_size` has a zero coordinate (no frame
component, or a zero sampling nibble), which the embedding surfaces as a
`panic`. -/
def processSOS (result : HeaderInfo) (p : Parser) : Outcome (HeaderInfo × Parser) :=
  match readStartOfScan p with
  | .error e => .err e
  | .ok (scan_info, p) =>
    let result := { result with scan_info, header_length := p.position }
    let max_xy := maxSamplingFold result.frame_info.components
    let mcu_size := (8 * max_xy.1, 8 * max_xy.2)
    if mcu_size.1 = 0 ∨ mcu_size.2 = 0 then
      .panic "attempt to divide by zero"
    else
      let mcu_dimensions := (result.frame_info.image_size.1 / mcu_size.1,
                             result.frame_info.image_size.2 / mcu_size.2)
      let padded_size := pad result.frame_info.image_size mcu_size
      let mcu_padded_dimensions := (padded_size.1 / mcu_size.1, padded_size.2 / mcu_size.2)
      let result := { result with
        frame_info := { result.frame_info with padded_size }
        mcu_info := ⟨max_xy, mcu_size, mcu_dimensions, mcu_padded_dimensions⟩ }
      if result.frame_info.components.length ≠ result.scan_info.components.length then
        .err (.malformed
          "Different number of components specified in scan header than frame header")
      else
        -- the index-by-index pairing of frame and scan components
        let components := List.zipWith Component.mk
          result.frame_info.components result.scan_info.components
        .ok ({ result with components }, p)

/-- The marker dispatch loop of `read_header_info`.  Each iteration consumes
at least two bytes through `read_next_marker`, so `data.length + 1` fuel is
always sufficient. -/
def readHeaderLoop : Nat → HeaderInfo → Parser → Outcome (HeaderInfo × Parser)
  | 0, _, _ => .err (.internalError "out of fuel")
  | fuel + 1, result, p =>
    match readNextMarker p with
    | .error e => .err e
    | .ok (marker, p) =>
      match marker with
      | .EOI => .err (.malformed "Unexpected EOI marker encountered.")
      | .SOF0 =>
        match readStartOfFrame p with
        | .error e => .err e
        | .ok (frame_info, p) => readHeaderLoop fuel { result with frame_info } p
      | .DHT =>
        match readHuffmanTables p with
        | .error e => .err e
        | .ok ((ac, dc), p) =>
          readHeaderLoop fuel
            { result with ac_huff_tables := ac ++ result.ac_huff_tables,
                          dc_huff_tables := dc ++ result.dc_huff_tables } p
      | .DQT =>
        match readQuantizationTables p with
        | .error e => .err e
        | .ok (qt, p) =>
          readHeaderLoop fuel { result with quant_tables := qt ++ result.quant_tables } p
      | .SOS => processSOS result p
      | _ =>
        match skipMarkerWithLength p with
        | .error e => .err e
        | .ok p => readHeaderLoop fuel result p

/-- `HeaderInfo::read_header_info`, from offset 0 of the input.  Note: no
check that the quantization or Huffman tables referenced by the scan
components have been populated is performed before returning. -/
def readHeaderInfo (data : List Nat) : Outcome (HeaderInfo × Parser) :=
  match readNextMarker ⟨data, 0⟩ with
  | .error e => .err e
  | .ok (marker, p) =>
    if marker ≠ JPEGMarker.SOI then
      .err (.malformed "This JPEG image does not have an SOI marker")
    else
      readHeaderLoop (data.length + 1) HeaderInfo.empty p

/-! ## `i16` arithmetic helpers

The entropy-decoding arithmetic of `jpeg_core.rs` is on `i16`; the embedding
computes on `Int` and reduces through `wrap16` (two's-complement wrap to
`[-2^15, 2^15)`, i.e. release-mode Rust overflow behaviour).  Shift amounts
are masked by the bit width, as Rust release builds do. -/

/-- Two's-complement wrap of an integer into the `i16` range. -/
def wrap16 (x : Int) : Int := (x + 32768) % 65536 - 32768

/-- `1i16 << s` with the shift amount masked to the `i16` bit width
(release-mode Rust semantics; `s % 16 = 15` gives the sign bit, `-2^15`). -/
def i16shl1 (s : Nat) : Int :=
  if s % 16 = 15 then -(2 ^ 15 : Int) else (2 : Int) ^ (s % 16)

/-- `u64 as i16` truncation. -/
def toI16 (n : Nat) : Int := wrap16 (n : Int)

/-- The EXTEND step shared by the DC and AC paths of `decode_block`:
`if value < (1 << (size - 1)) { value -= (1 << size) - 1 }` on `i16`, where
`size - 1` is `u8` arithmetic (so `size = 0` wraps to a masked shift of 15)
and both shifts and the subtractions wrap. -/
def signExtend (size : Nat) (value : Int) : Int :=
  if value < i16shl1 ((size + 255) % 256) then
    wrap16 (value - wrap16 (i16shl1 size - 1))
  else value

/-! ## Bitstream (`bitstream.rs`) -/

/-- `Bitstream`: MSB-first bit reader over the unescaped entropy bytes. -/
structure Bitstream : Type where
  data : List Nat
  byte_cursor : Nat
  bit_cursor : Nat
  deriving Repr, DecidableEq

/-- `Bitstream::new`. -/
def Bitstream.new (data : List Nat) : Bitstream := ⟨data, 0, 0⟩

/-- The `for _ in 0..bits` loop of `Bitstream::read_bits`.  The byte index
`self.data[self.byte_cursor]` panics when the cursor sits exactly at the end
(the guard inside the loop only rejects `byte_cursor > len`). -/
def readBitsLoop : Nat → Nat → Bitstream → Outcome (Nat × Bitstream)
  | 0, value, bs => .ok (value, bs)
  | bits + 1, value, bs =>
    match bs.data.get? bs.byte_cursor with
    | none => .panic "index out of bounds: bitstream data"
    | some current_byte =>
      let current_bit := 1 &&& (current_byte >>> (7 - bs.bit_cursor))
      let value := value * 2 + current_bit
      let bit_cursor := bs.bit_cursor + 1
      if bit_cursor = 8 then
        let byte_cursor := bs.byte_cursor + 1
        if byte_cursor > bs.data.length then
          .err (.internalError "Read past end of bit buffer")
        else
          readBitsLoop bits value ⟨bs.data, byte_cursor, 0⟩
      else
        readBitsLoop bits value ⟨bs.data, bs.byte_cursor, bit_cursor⟩

/-- `Bitstream::read_bits`. -/
def readBits (bits : Nat) (bs : Bitstream) : Outcome (Nat × Bitstream) :=
  if bits > 64 then
    .err (.internalError "Can't read more than 64 bits at a time")
  else if bs.byte_cursor ≥ bs.data.length then
    .err (.internalError "Read past end of bit buffer")
  else
    readBitsLoop bits 0 bs

/-! ## Huffman decoding (`JPEGDecoder::decode_next_value`) -/

/-- The inner `for _ in 0..table.bitcode_counts[i]` scan of
`decode_next_value`: compare `code` against `table.codes[code_cursor]`,
advancing the cursor.  Returns the matching cursor position if found.
`codes` is indexed without a bounds check in the source, hence the panic. -/
def scanCodes (codes : List Nat) (code : Nat) : Nat → Nat → Outcome (Option Nat × Nat)
  | 0, code_cursor => .ok (none, code_cursor)
  | count + 1, code_cursor =>
    match codes.get? code_cursor with
    | none => .panic "index out of bounds: codes"
    | some c =>
      if code = c then .ok (some code_cursor, code_cursor)
      else scanCodes codes code count (code_cursor + 1)

/-- The `for i in 0u8..16` loop of `decode_next_value`, one bit per
iteration.  Returns the decoded `(symbol, i)` pair. -/
def decodeNextAux (table : HuffmanTable) :
    List Nat → Nat → Nat → Bitstream → Outcome ((Nat × Nat) × Bitstream)
  | [], _, _, _ =>
    .err (.unsupportedFeature "JPEG has code longer than the 16 bit maximum for baseline JPEGs.")
  | i :: rest, code, code_cursor, bs =>
    match readBits 1 bs with
    | .err e => .err e
    | .panic s => .panic s
    | .ok (bit, bs) =>
      let code := code * 2 + bit
      match scanCodes table.codes code (table.bitcode_counts.getD i 0) code_cursor with
      | .err e => .err e
      | .panic s => .panic s
      | .ok (some j, _) =>
        match table.symbols.get? j with
        | none => .panic "index out of bounds: symbols"
        | some sym => .ok ((sym, i), bs)
      | .ok (none, code_cursor) => decodeNextAux table rest code code_cursor bs

/-- `JPEGDecoder::decode_next_value`. -/
def decodeNextValue (table : HuffmanTable) (bs : Bitstream) :
    Outcome ((Nat × Nat) × Bitstream) :=
  decodeNextAux table (List.range 16) 0 0 bs

/-! ## Macroblocks and block decoding (`jpeg_core.rs`) -/

/-- `Macroblock`: one plane of `i16` samples per component. -/
structure Macroblock : Type where
  y : List (List Int)
  cb : List (List Int)
  cr : List (List Int)
  deriving Repr, DecidableEq

/-- `Macroblock::new`: three `8·Vmax × 8·Hmax` zero planes
(`block_sample_size` is `(Hmax, Vmax)`). -/
def Macroblock.new (block_sample_size : Nat × Nat) : Macroblock :=
  let plane := List.replicate (8 * block_sample_size.2)
    (List.replicate (8 * block_sample_size.1) (0 : Int))
  ⟨plane, plane, plane⟩

/-- `Macroblock::get_component`: the selector dispatch.  `none` is the
`panic!("Invalid component selector")` arm. -/
def Macroblock.get_component (mb : Macroblock) (selector : Nat) :
    Option (List (List Int)) :=
  match selector with
  | 1 => some mb.y
  | 2 => some mb.cb
  | 3 => some mb.cr
  | _ => none

/-- Write-back of the `&mut` plane obtained from `get_component` (callers
mutate the borrowed plane in place; the embedding threads the plane and
stores it back). -/
def Macroblock.set_component (mb : Macroblock) (selector : Nat)
    (plane : List (List Int)) : Macroblock :=
  match selector with
  | 1 => { mb with y := plane }
  | 2 => { mb with cb := plane }
  | 3 => { mb with cr := plane }
  | _ => mb

/-- Read `g[r][c]` with the Rust `Vec` indexing panic. -/
def readGrid (g : List (List Int)) (r c : Nat) : Outcome Int :=
  match g.get? r with
  | none => .panic "index out of bounds: component plane"
  | some row =>
    match row.get? c with
    | none => .panic "index out of bounds: component plane"
    | some v => .ok v

/-- Write `g[r][c] = v` with the Rust `Vec` indexing panic. -/
def writeGrid (g : List (List Int)) (r c : Nat) (v : Int) :
    Outcome (List (List Int)) :=
  match g.get? r with
  | none => .panic "index out of bounds: component plane"
  | some row =>
    if c < row.length then .ok (g.set r (row.set c v))
    else .panic "index out of bounds: component plane"

/-- Bits still unread in a bitstream (used only to give the AC loop enough
fuel: `decode_next_value` consumes at least one bit per iteration). -/
def Bitstream.bitsRemaining (bs : Bitstream) : Nat :=
  bs.data.length * 8 - (bs.byte_cursor * 8 + bs.bit_cursor)

/-- The AC-coefficient `while k != 63` loop of `decode_block`.  `k` is `u8`
(sums wrap at 256 in release mode).  `huffman_val = 0x00` is EOB, `0xF0` is
ZRL.  Otherwise the run nibble is added to `k`, the source checks `k > 64`
(not `k > 63`), and `dct_coefficients[k]` is written — a `Vec` index that
panics when `k = 64` slips past the check. -/
def acCoefficientLoop (ac_table : HuffmanTable) :
    Nat → Nat → List Int → Bitstream → Outcome (List Int × Bitstream)
  | 0, _, _, _ => .err (.internalError "out of fuel")
  | fuel + 1, k, dct_coefficients, bs =>
    if k ≠ 63 then
      let k := (k + 1) % 256
      match decodeNextValue ac_table bs with
      | .err e => .err e
      | .panic s => .panic s
      | .ok ((huffman_val, _), bs) =>
        if huffman_val = 0x00 then
          .ok (dct_coefficients, bs)
        else if huffman_val = 0xF0 then
          acCoefficientLoop ac_table fuel ((k + 15) % 256) dct_coefficients bs
        else
          let run_length := huffman_val / 16
          let k := (k + run_length) % 256
          if k > 64 then
            .err (.malformed "Run length exceeds max K of 64")
          else
            let code_length := huffman_val % 16
            match readBits code_length bs with
            | .err e => .err e
            | .panic s => .panic s
            | .ok (raw, bs) =>
              let value := signExtend code_length (toI16 raw)
              if k < dct_coefficients.length then
                acCoefficientLoop ac_table fuel k (dct_coefficients.set k value) bs
              else
                .panic "index out of bounds: dct_coefficients"
    else
      .ok (dct_coefficients, bs)

/-- The dequantize-and-un-zig-zag `for i in 0..64` loop of `decode_block`:
`component_block[row + base_y][col + base_x] =
 dct_coefficients[i] * qtable[row][col] as i16`. -/
def dequantUnzigzag (dct_coefficients : List Int) (qtable : List (List Nat))
    (base_y base_x : Nat) (component_block : List (List Int)) :
    Outcome (List (List Int)) :=
  (List.range 64).foldlM
    (fun g i =>
      let rc := ZIGZAG_MAP.getD i (0, 0)
      writeGrid g (rc.1 + base_y) (rc.2 + base_x)
        (wrap16 (dct_coefficients.getD i 0 * toI16 ((qtable.getD rc.1 []).getD rc.2 0))))
    component_block

/-- The IDCT step of `decode_block`: the floating-point inverse DCT value of
each of the 64 positions is computed from the pre-IDCT plane and written
(truncated to `i16`) into a clone, which then replaces the plane.  The
floating-point computation itself is the uninterpreted parameter `idctFn`
(given the pre-IDCT plane, the data-unit base and the position); no claim
depends on its values. -/
def idctStep (idctFn : List (List Int) → Nat → Nat → Nat → Nat → Int)
    (base_y base_x : Nat) (component_block : List (List Int)) :
    Outcome (List (List Int)) :=
  (List.range 8).foldlM
    (fun g yy =>
      (List.range 8).foldlM
        (fun g xx =>
          writeGrid g (base_y + yy) (base_x + xx)
            (idctFn component_block base_y base_x yy xx))
        g)
    component_block

/-- One data unit of one component inside `decode_block`: DC coefficient
(Huffman category, raw bits, EXTEND, predictor update), AC coefficients,
dequantize + un-zig-zag, IDCT. -/
def decodeDataUnit (idctFn : List (List Int) → Nat → Nat → Nat → Nat → Int)
    (dc_table ac_table : HuffmanTable) (qtable : List (List Nat)) (selector : Nat)
    (base_y base_x : Nat) (component_block : List (List Int))
    (dc_predictions : List Int) (bs : Bitstream) :
    Outcome (List (List Int) × List Int × Bitstream) :=
  Outcome.bind (decodeNextValue dc_table bs) fun dcv =>
  Outcome.bind (readBits dcv.1.1 dcv.2) fun rawv =>
  match dc_predictions.get? selector with
  | none => .panic "index out of bounds: dc_predictions"
  | some pred =>
    Outcome.bind
      (acCoefficientLoop ac_table (rawv.2.bitsRemaining + 1) 0
        ((List.replicate 64 (0 : Int)).set 0
          (wrap16 (pred + (if dcv.1.1 ≠ 0 then signExtend dcv.1.1 (toI16 rawv.1)
                           else toI16 rawv.1))))
        rawv.2)
      fun acv =>
    Outcome.bind (dequantUnzigzag acv.1 qtable base_y base_x component_block) fun cb1 =>
    Outcome.bind (idctStep idctFn base_y base_x cb1) fun cb2 =>
    .ok (cb2,
         dc_predictions.set selector
           (wrap16 (pred + (if dcv.1.1 ≠ 0 then signExtend dcv.1.1 (toI16 rawv.1)
                            else toI16 rawv.1))),
         acv.2)

/-- The nearest-neighbour stretch at the end of each component of
`decode_block` (executed when a sampling ratio exceeds 1).  The ratio
divisions are `u8`/`usize` divisions that panic on a zero divisor. -/
def stretchComponent (max_xy : Nat × Nat) (xy_sampling_factor : Nat × Nat)
    (component_block : List (List Int)) : Outcome (List (List Int)) :=
  if xy_sampling_factor.1 = 0 ∨ xy_sampling_factor.2 = 0 then
    .panic "attempt to divide by zero"
  else
    let horiz_ratio := max_xy.1 / xy_sampling_factor.1
    let vert_ratio := max_xy.2 / xy_sampling_factor.2
    if horiz_ratio > 1 ∨ vert_ratio > 1 then
      if horiz_ratio = 0 ∨ vert_ratio = 0 then
        .panic "attempt to divide by zero"
      else
        (List.range (8 * max_xy.2)).foldlM
          (fun g yy =>
            (List.range (8 * max_xy.1)).foldlM
              (fun g xx =>
                match readGrid component_block (yy / vert_ratio) (xx / horiz_ratio) with
                | .err e => .err e
                | .panic s => .panic s
                | .ok v => writeGrid g yy xx v)
              g)
          component_block
    else
      .ok component_block

/-- One component of `decode_block`: table lookups (each `.unwrap()`), the
`get_component` dispatch, the `Hi × Vi` grid of data units, and the stretch. -/
def decodeComponent (idctFn : List (List Int) → Nat → Nat → Nat → Nat → Int)
    (header : HeaderInfo) (component : Component) (block : Macroblock)
    (dc_predictions : List Int) (bs : Bitstream) :
    Outcome (Macroblock × List Int × Bitstream) :=
  match header.dc_huff_tables.lookup component.scan.dc_table with
  | none => .panic "called Option::unwrap on a None value"
  | some dc_table =>
  match header.ac_huff_tables.lookup component.scan.ac_table with
  | none => .panic "called Option::unwrap on a None value"
  | some ac_table =>
  match header.quant_tables.lookup component.frame.qtable_id with
  | none => .panic "called Option::unwrap on a None value"
  | some qt =>
  match block.get_component component.scan.selector with
  | none => .panic "Invalid component selector"
  | some component_block =>
    Outcome.bind
      ((List.range component.frame.xy_sampling_factor.2).foldlM
        (fun st mcu_row =>
          (List.range component.frame.xy_sampling_factor.1).foldlM
            (fun st mcu_col =>
              decodeDataUnit idctFn dc_table ac_table qt.table
                component.scan.selector (mcu_row * 8) (mcu_col * 8)
                st.1 st.2.1 st.2.2)
            st)
        (component_block, dc_predictions, bs))
      fun st =>
    Outcome.bind
      (stretchComponent header.mcu_info.max_xy_sampling_factor
        component.frame.xy_sampling_factor st.1)
      fun stretched =>
    .ok (block.set_component component.scan.selector stretched, st.2.1, st.2.2)

/-- `JPEGDecoder::decode_block`: a fresh macroblock, then each component in
header order. -/
def decode_block (idctFn : List (List Int) → Nat → Nat → Nat → Nat → Int)
    (header : HeaderInfo) (dc_predictions : List Int) (bs : Bitstream) :
    Outcome (Macroblock × List Int × Bitstream) :=
  header.components.foldlM
    (fun st component => decodeComponent idctFn header component st.1 st.2.1 st.2.2)
    (Macroblock.new header.mcu_info.max_xy_sampling_factor, dc_predictions, bs)

/-! ## Entropy data extraction (`JPEGDecoder::read_huffman_data`) -/

/-- The `loop` of `read_huffman_data`.  `last_byte` is the byte read on the
previous iteration; the list holds the bytes not yet read.  A `0xFF 0x00`
pair emits `0xFF` and immediately reads the next byte; a `0xFF` followed by
any other byte is assembled into a marker word and checked (EOI terminates
successfully, an unrecognized word propagates `to_marker`'s error, any other
recognized marker is silently skipped); a plain byte is emitted. -/
def huffLoop : Nat → Nat → List Nat → List Nat → Except Err (List Nat)
  | 0, _, _, _ => .error (.internalError "out of fuel")
  | fuel + 1, last_byte, bytes, huffman_data =>
    match bytes with
    | [] => .error (.malformed "Unexpected end of input")
    | current :: rest =>
      if last_byte = 0xFF then
        if current = 0x00 then
          match rest with
          | [] => .error (.malformed "Unexpected end of input")
          | next :: rest' => huffLoop fuel next rest' (huffman_data ++ [last_byte])
        else
          match toMarker (0xFF00 ||| current) with
          | .error e => .error e
          | .ok marker =>
            if marker = JPEGMarker.EOI then .ok huffman_data
            else huffLoop fuel current rest huffman_data
      else
        huffLoop fuel current rest (huffman_data ++ [last_byte])

/-- Entry into `huffLoop` once the priming byte has been read: `bytes` holds
the not-yet-read input, whose head becomes `current_byte`.  Each iteration
of the loop consumes at least one input byte, so fuel exceeding the input
length is always sufficient. -/
def huffStart (fuel : Nat) (bytes acc : List Nat) : Except Err (List Nat) :=
  match bytes with
  | [] => .error (.malformed "Unexpected end of input")
  | b :: rest => huffLoop fuel b rest acc

/-- Entry into the loop: the initial `read_next_byte` that primes
`current_byte` (failing on empty input), with sufficient fuel. -/
def huffLoopOn (bytes acc : List Nat) : Except Err (List Nat) :=
  huffStart bytes.length bytes acc

/-- `JPEGDecoder::read_huffman_data`, applied to the bytes remaining after
the scan header. -/
def read_huffman_data (bytes : List Nat) : Except Err (List Nat) :=
  huffLoopOn bytes []

/-- The byte-stuffing encoder of the spec's round-trip law: each `0xFF`
becomes `0xFF 0x00`. -/
def byteStuff (bytes : List Nat) : List Nat :=
  (bytes.map (fun b => if b = 0xFF then [0xFF, 0x00] else [b])).flatten

/-! ## Bitmap assembly (`JPEGDecoder::blocks_to_bitmap`, `image.rs`) -/

/-- `Bitmap` (`image.rs`). -/
structure Bitmap : Type where
  channels : Nat
  size : Nat × Nat
  data : List Nat
  deriving Repr, DecidableEq

/-- `data[i] = v` on the bitmap buffer, with the Rust `Vec` indexing panic. -/
def setBitmapByte (data : List Nat) (i v : Nat) : Outcome (List Nat) :=
  if i < data.length then .ok (data.set i v)
  else .panic "index out of bounds: bitmap data"

/-- The per-pixel body of `blocks_to_bitmap`: locate the macroblock, read
the three component samples, convert (the floating-point `ycbcr_to_rgb` is
the uninterpreted parameter `ycbcrFn`), and store the three bytes. -/
def writePixel (ycbcrFn : Int × Int × Int → Nat × Nat × Nat)
    (blocks : List (List Macroblock)) (header : HeaderInfo) (channels : Nat)
    (x y : Nat) (data : List Nat) : Outcome (List Nat) :=
  if 8 * header.mcu_info.max_xy_sampling_factor.2 = 0 ∨
      8 * header.mcu_info.max_xy_sampling_factor.1 = 0 then
    .panic "attempt to divide by zero"
  else
    match (blocks.get? (y / (8 * header.mcu_info.max_xy_sampling_factor.2))).bind
        (fun row => row.get? (x / (8 * header.mcu_info.max_xy_sampling_factor.1))) with
    | none => .panic "index out of bounds: blocks"
    | some block =>
      Outcome.bind
        (match block.get_component 1 with
          | none => Outcome.panic "Invalid component selector"
          | some g => readGrid g (y % (8 * header.mcu_info.max_xy_sampling_factor.2))
              (x % (8 * header.mcu_info.max_xy_sampling_factor.1)))
        fun lum =>
      Outcome.bind
        (match block.get_component 2 with
          | none => Outcome.panic "Invalid component selector"
          | some g => readGrid g (y % (8 * header.mcu_info.max_xy_sampling_factor.2))
              (x % (8 * header.mcu_info.max_xy_sampling_factor.1)))
        fun cbv =>
      Outcome.bind
        (match block.get_component 3 with
          | none => Outcome.panic "Invalid component selector"
          | some g => readGrid g (y % (8 * header.mcu_info.max_xy_sampling_factor.2))
              (x % (8 * header.mcu_info.max_xy_sampling_factor.1)))
        fun crv =>
      Outcome.bind
        (setBitmapByte data
          ((y * header.frame_info.image_size.1 + x) * channels + 0)
          (ycbcrFn (lum, cbv, crv)).1)
        fun data =>
      Outcome.bind
        (setBitmapByte data
          ((y * header.frame_info.image_size.1 + x) * channels + 1)
          (ycbcrFn (lum, cbv, crv)).2.1)
        fun data =>
      setBitmapByte data
        ((y * header.frame_info.image_size.1 + x) * channels + 2)
        (ycbcrFn (lum, cbv, crv)).2.2

/-- `JPEGDecoder::blocks_to_bitmap`: a zero buffer of
`width · height · channels` bytes with every unpadded pixel written through
`writePixel` (`channels` is `components.len() as u8`). -/
def blocks_to_bitmap (ycbcrFn : Int × Int × Int → Nat × Nat × Nat)
    (blocks : List (List Macroblock)) (header : HeaderInfo) : Outcome Bitmap :=
  match
    (List.range header.frame_info.image_size.2).foldlM
      (fun data y =>
        (List.range header.frame_info.image_size.1).foldlM
          (fun data x => writePixel ycbcrFn blocks header
            (header.components.length % 256) x y data)
          data)
      (List.replicate (header.frame_info.image_size.1 *
        header.frame_info.image_size.2 * (header.components.length % 256)) 0)
  with
  | .err e => .err e
  | .panic s => .panic s
  | .ok data =>
    .ok ⟨header.components.length % 256, header.frame_info.image_size, data⟩

/-! ## The scan driver (`JPEGDecoder::read_scan`, `mod.rs`) -/

/-- `JPEGDecoder::read_scan`, applied to the bytes remaining after the
header: extract the entropy data, size `dc_predictions` to the number of
scan components plus one, decode every MCU of the padded grid into `blocks`
(the grid writes are in bounds by construction), and assemble the bitmap. -/
def readScan (idctFn : List (List Int) → Nat → Nat → Nat → Nat → Int)
    (ycbcrFn : Int × Int × Int → Nat × Nat × Nat)
    (header : HeaderInfo) (scanBytes : List Nat) : Outcome Bitmap :=
  match read_huffman_data scanBytes with
  | .error e => .err e
  | .ok huffman_data =>
    match
      (List.range header.mcu_info.mcu_padded_dimensions.2).foldlM
        (fun st vert =>
          (List.range header.mcu_info.mcu_padded_dimensions.1).foldlM
            (fun st horiz =>
              match decode_block idctFn header st.2.1 st.2.2 with
              | .err e => Outcome.err e
              | .panic s => Outcome.panic s
              | .ok (mb, dcp, bs) => Outcome.ok (set2 st.1 vert horiz mb, dcp, bs))
            st)
        (List.replicate header.mcu_info.mcu_padded_dimensions.2
          (List.replicate header.mcu_info.mcu_padded_dimensions.1
            (Macroblock.new header.mcu_info.max_xy_sampling_factor)),
         List.replicate (header.scan_info.components.length + 1) (0 : Int),
         Bitstream.new huffman_data)
    with
    | .err e => .err e
    | .panic s => .panic s
    | .ok (blocks, _, _) => blocks_to_bitmap ycbcrFn blocks header

/-- `ImageDecoder::decode` for JPEG (`mod.rs`): parse the header, then read
the scan from the position the header parser left the cursor at. -/
def decode (idctFn : List (List Int) → Nat → Nat → Nat → Nat → Int)
    (ycbcrFn : Int × Int × Int → Nat × Nat × Nat)
    (data : List Nat) : Outcome Bitmap :=
  match readHeaderInfo data with
  | .err e => .err e
  | .panic s => .panic s
  | .ok (header, p) => readScan idctFn ycbcrFn header (p.data.drop p.pos)

/-! ## Panic bookkeeping for the safety claims -/

/-- Computable check that an outcome is not a panic with one of the given
labels (a returned `Error` value or an `ok` both pass). -/
def avoidsPanics {α : Type} (bad : List String) : Outcome α → Bool
  | .panic s => ! bad.contains s
  | _ => true

/-- Invariant carrier: the outcome avoids the listed panic labels, and its
value (when it returns one) satisfies `P`. -/
def OutProp {α : Type} (bad : List String) (P : α → Prop) (o : Outcome α) : Prop :=
  avoidsPanics bad o = true ∧ ∀ a, o = .ok a → P a

/-- The two panic sites of claim C10: the `panic!` arm of
`Macroblock::get_component` and the `dc_predictions[selector]` index. -/
def selectorPanics : List String :=
  ["Invalid component selector", "index out of bounds: dc_predictions"]

/-! ## Concrete data used by the evaluations -/

/-- Sixteen count bytes declaring a single 1-bit code. -/
def sampleCounts : List Nat := [1, 0, 0, 0, 0, 0, 0, 0, 0, 0, 0, 0, 0, 0, 0, 0]

/-- A DC table whose single code (one 0 bit) decodes to category 0. -/
def sampleDcTable : HuffmanTable :=
  ⟨.Dc, 0, sampleCounts, [0], generate_codes sampleCounts⟩

/-- An AC table whose single code (one 0 bit) decodes to EOB. -/
def sampleAcTable0 : HuffmanTable :=
  ⟨.Ac, 0, sampleCounts, [0], generate_codes sampleCounts⟩

/-- An all-zero quantization table. -/
def sampleQTable : QuantizationTable :=
  ⟨.Luma, 0, 0, List.replicate 8 (List.replicate 8 0)⟩

/-- A parsed header for a 1x1-pixel, 4:4:4, three-component image whose
tables are all present. -/
def sampleHeader3 : HeaderInfo where
  frame_info := ⟨8, (1, 1), (8, 8), [⟨1, (1, 1), 0⟩, ⟨2, (1, 1), 0⟩, ⟨3, (1, 1), 0⟩]⟩
  scan_info := ⟨[⟨1, 0, 0⟩, ⟨2, 0, 0⟩, ⟨3, 0, 0⟩], (0, 63), 0⟩
  components := [⟨⟨1, (1, 1), 0⟩, ⟨1, 0, 0⟩⟩, ⟨⟨2, (1, 1), 0⟩, ⟨2, 0, 0⟩⟩,
                 ⟨⟨3, (1, 1), 0⟩, ⟨3, 0, 0⟩⟩]
  ac_huff_tables := [(0, sampleAcTable0)]
  dc_huff_tables := [(0, sampleDcTable)]
  quant_tables := [(0, sampleQTable)]
  header_length := 0
  mcu_info := ⟨(1, 1), (8, 8), (1, 1), (1, 1)⟩

/-- An AC table with two 2-bit codes: `00` decodes to ZRL (`0xF0`) and `01`
to `0xF1` (run 15, size 1). -/
def zrlAcTable : HuffmanTable :=
  ⟨.Ac, 0, [0, 2, 0, 0, 0, 0, 0, 0, 0, 0, 0, 0, 0, 0, 0, 0], [0xF0, 0xF1],
   generate_codes [0, 2, 0, 0, 0, 0, 0, 0, 0, 0, 0, 0, 0, 0, 0, 0]⟩

/-- A complete JPEG stream (SOI, SOF0 for an 8x8 3-component 4:4:4 frame,
SOS, a one-byte entropy stream, EOI) that declares quantization and Huffman
table ids but contains no DQT or DHT segment. -/
def missingTableBytes : List Nat :=
  [0xFF, 0xD8,
   0xFF, 0xC0, 0, 17, 8, 0, 8, 0, 8, 3, 1, 0x11, 0, 2, 0x11, 1, 3, 0x11, 1,
   0xFF, 0xDA, 0, 12, 3, 1, 0x00, 2, 0x11, 3, 0x11, 0, 63, 0,
   0x00, 0xFF, 0xD9]

/-- A parsed single-component header whose one scan component has the given
selector; all referenced tables are present, and `dc_predictions` will be
sized to `1 + 1 = 2` entries by `read_scan`. -/
def selectorHeader (s : Nat) : HeaderInfo where
  frame_info := ⟨8, (1, 1), (8, 8), [⟨s, (1, 1), 0⟩]⟩
  scan_info := ⟨[⟨s, 0, 0⟩], (0, 63), 0⟩
  components := [⟨⟨s, (1, 1), 0⟩, ⟨s, 0, 0⟩⟩]
  ac_huff_tables := [(0, sampleAcTable0)]
  dc_huff_tables := [(0, sampleDcTable)]
  quant_tables := [(0, sampleQTable)]
  header_length := 0
  mcu_info := ⟨(1, 1), (8, 8), (1, 1), (1, 1)⟩

/-- A complete, otherwise-valid JPEG stream (8x8, 4:4:4, all-zero tables,
trivial scan) whose SOF0 precision byte is 12 instead of 8. -/
def precision12Bytes : List Nat :=
  [0xFF, 0xD8,
   0xFF, 0xC0, 0, 17, 12, 0, 8, 0, 8, 3, 1, 0x11, 0, 2, 0x11, 0, 3, 0x11, 0,
   0xFF, 0xDB, 0, 67, 0x00] ++ List.replicate 64 0 ++
  [0xFF, 0xC4, 0, 38,
   0x00, 1, 0, 0, 0, 0, 0, 0, 0, 0, 0, 0, 0, 0, 0, 0, 0, 0,
   0x10, 1, 0, 0, 0, 0, 0, 0, 0, 0, 0, 0, 0, 0, 0, 0, 0, 0,
   0xFF, 0xDA, 0, 12, 3, 1, 0x00, 2, 0x00, 3, 0x00, 0, 63, 0,
   0x00, 0xFF, 0xD9]

/-! ## Theorems -/

/-- The fill-byte recovery loop of `read_next_marker` can never return a
marker: it is entered only with `word = 0xFFFF`, and its marker-assembly
branch is guarded by `word == 0xFF`, which is then always false. -/
theorem markerFillLoop_ffff_ne_ok :
    ∀ (fuel : Nat) (p : Parser) (r : JPEGMarker × Parser),
      markerFillLoop 0xFFFF fuel p ≠ .ok r := by
  intro fuel
  induction fuel with
  | zero => intro p r h; exact Except.noConfusion h
  | succ n ih =>
    intro p r h
    unfold markerFillLoop at h
    cases hb : readNextByte p with
    | error e => rw [hb] at h; exact Except.noConfusion h
    | ok v =>
      rw [hb] at h
      by_cases h0 : v.1 = 0x00
      · simp only [h0, if_pos rfl] at h
        exact Except.noConfusion h
      · simp only [if_neg h0] at h
        have hff : (0xFFFF : Nat) ≠ 0xFF := by decide
        simp only [if_neg hff] at h
        exact ih _ _ h

/-- C2 (code_bug): with one fill byte `0xFF` before the SOF0 marker word,
`read_next_marker` reads the word `0xFFFF`, enters the recovery loop, and —
because the loop's `word == 0xFF` test can never hold — consumes the rest of
the input and fails with `Malformed("Unexpected end of input")` instead of
returning SOF0; more generally, whenever the next two bytes are fill bytes
the function can never return a marker at all. -/
theorem readNextMarker_fill_bytes_fails :
    readNextMarker ⟨[0xFF, 0xFF, 0xFF, 0xC0], 0⟩ =
      .error (.malformed "Unexpected end of input") ∧
    ∀ rest : List Nat, ∃ e : Err,
      readNextMarker ⟨0xFF :: 0xFF :: rest, 0⟩ = .error e := by
  constructor
  · decide
  · intro rest
    cases h : readNextMarker ⟨0xFF :: 0xFF :: rest, 0⟩ with
    | error e => exact ⟨e, rfl⟩
    | ok v =>
      have hred : readNextMarker ⟨0xFF :: 0xFF :: rest, 0⟩ =
          markerFillLoop 0xFFFF ((0xFF :: 0xFF :: rest : List Nat).length + 1)
            ⟨0xFF :: 0xFF :: rest, 2⟩ := rfl
      rw [hred] at h
      exact absurd h (markerFillLoop_ffff_ne_ok _ _ _)

/-- C4 counterexample: `to_marker 0xFFC2` (the SOF2 marker word) fails with
`Malformed("Marker not supported")`, not with `UnsupportedFeature` as the
claim states. -/
theorem toMarker_SOF2_malformed :
    toMarker 0xFFC2 = .error (.malformed "Marker not supported") := rfl

/-- C4 amended: marker parsing never produces an `UnsupportedFeature` error
for any word — every unrecognized word fails with `Malformed` — and an input
beginning SOI, SOF2 is rejected by the header parser with
`Malformed("Invalid JPEG file")`. -/
theorem toMarker_unrecognized_malformed :
    (∀ w : Nat, (∃ m, toMarker w = .ok m) ∨
      ∃ msg, toMarker w = .error (.malformed msg)) ∧
    ∀ rest : List Nat,
      readHeaderInfo ([0xFF, 0xD8, 0xFF, 0xC2] ++ rest) =
        .err (.malformed "Invalid JPEG file") := by
  constructor
  · intro w
    unfold toMarker
    cases hm : markerFromU16 w with
    | none => exact Or.inr ⟨"Marker not supported", rfl⟩
    | some m => cases m <;> exact Or.inl ⟨_, rfl⟩
  · intro rest
    rfl

/-- C6 (code_bug): `read_start_of_frame` accepts any precision byte — it is
read and stored without validation.  For every value `precision` (in
particular 12), a well-formed SOF0 segment parses to `Ok` with that
precision stored, instead of failing with `UnsupportedFeature` as the spec
requires for precision ≠ 8. -/
theorem readStartOfFrame_ignores_precision :
    (∀ precision : Nat,
      readStartOfFrame ⟨[0, 17, precision, 0, 8, 0, 8, 3,
                         1, 17, 0, 2, 17, 1, 3, 17, 1], 0⟩ =
        .ok (⟨precision, (8, 8), (0, 0),
              [⟨1, (1, 1), 0⟩, ⟨2, (1, 1), 1⟩, ⟨3, (1, 1), 1⟩]⟩,
             ⟨[0, 17, precision, 0, 8, 0, 8, 3, 1, 17, 0, 2, 17, 1, 3, 17, 1], 17⟩)) ∧
    decode (fun _ _ _ _ _ => 0) (fun _ => (0, 0, 0)) precision12Bytes =
      .ok ⟨3, (8, 8), List.replicate 192 0⟩ := by
  constructor
  · intro precision
    rfl
  · decide

/-- One non-`0xFF` byte is consumed and emitted by the loop. -/
theorem huffLoop_step_plain (f b : Nat) (bytes acc : List Nat) (hb : b ≠ 0xFF) :
    huffLoop (f + 1) b bytes acc = huffStart f bytes (acc ++ [b]) := by
  cases bytes with
  | nil => rfl
  | cons c cs => simp only [huffLoop, huffStart, if_neg hb]

/-- One stuffed `0xFF 0x00` pair is consumed, emitting `0xFF`. -/
theorem huffLoop_step_stuffed (f : Nat) (bytes acc : List Nat) :
    huffLoop (f + 1) 0xFF (0x00 :: bytes) acc = huffStart f bytes (acc ++ [0xFF]) := by
  cases bytes with
  | nil => rfl
  | cons c cs => rfl

/-- Round-trip lemma for the entropy extractor: with enough fuel, running
the loop on a byte-stuffed sequence followed by the EOI word (and anything
after it) returns the accumulator extended with the original sequence,
stopping at the EOI. -/
theorem huffStart_byteStuff (ws : List Nat) :
    ∀ (fuel : Nat) (acc tail : List Nat), ws.length + 1 ≤ fuel →
      huffStart fuel (byteStuff ws ++ 0xFF :: 0xD9 :: tail) acc = .ok (acc ++ ws) := by
  induction ws with
  | nil =>
    intro fuel acc tail hfuel
    match fuel, hfuel with
    | f + 1, _ =>
      simp only [byteStuff, List.map_nil, List.flatten_nil, List.nil_append]
      have : huffStart (f + 1) (0xFF :: 0xD9 :: tail) acc = .ok acc := rfl
      rw [this, List.append_nil]
  | cons b ws ih =>
    intro fuel acc tail hfuel
    match fuel, hfuel with
    | f + 1, hfuel =>
      by_cases hb : b = 0xFF
      · subst hb
        have hstream : byteStuff (0xFF :: ws) ++ 0xFF :: 0xD9 :: tail =
            0xFF :: 0x00 :: (byteStuff ws ++ 0xFF :: 0xD9 :: tail) := by
          simp [byteStuff]
        rw [hstream]
        show huffLoop (f + 1) 0xFF (0x00 :: (byteStuff ws ++ 0xFF :: 0xD9 :: tail)) acc = _
        rw [huffLoop_step_stuffed, ih f (acc ++ [0xFF]) tail (by simpa using Nat.lt_of_succ_le hfuel)]
        simp
      · have hstream : byteStuff (b :: ws) ++ 0xFF :: 0xD9 :: tail =
            b :: (byteStuff ws ++ 0xFF :: 0xD9 :: tail) := by
          simp [byteStuff, hb]
        rw [hstream]
        show huffLoop (f + 1) b (byteStuff ws ++ 0xFF :: 0xD9 :: tail) acc = _
        rw [huffLoop_step_plain f b _ acc hb,
          ih f (acc ++ [b]) tail (by simpa using Nat.lt_of_succ_le hfuel)]
        simp

/-- Stuffing never shrinks a sequence. -/
theorem byteStuff_length_ge (ws : List Nat) : ws.length ≤ (byteStuff ws).length := by
  induction ws with
  | nil => simp [byteStuff]
  | cons b ws ih =>
    by_cases hb : b = 0xFF <;> simp [byteStuff, hb] at ih ⊢ <;> omega

/-- C5 (confirmed): byte-stuffing round-trip.  For every sequence of bytes,
encoding it by `0xFF ↦ 0xFF 0x00` and appending the EOI word `0xFF 0xD9`
(whatever bytes follow the EOI), `read_huffman_data` recovers exactly the
original sequence, terminating successfully at that embedded EOI. -/
theorem read_huffman_data_roundtrip :
    ∀ (ws tail : List Nat),
      read_huffman_data (byteStuff ws ++ 0xFF :: 0xD9 :: tail) = .ok ws := by
  intro ws tail
  have hlen : ws.length + 1 ≤ (byteStuff ws ++ 0xFF :: 0xD9 :: tail).length := by
    have := byteStuff_length_ge ws
    simp only [List.length_append, List.length_cons]
    omega
  show huffLoopOn (byteStuff ws ++ 0xFF :: 0xD9 :: tail) [] = _
  unfold huffLoopOn
  rw [huffStart_byteStuff ws _ [] tail hlen]
  simp

/-- Pushing the head count into the starting code of the first-code
recurrence. -/
theorem firstCodeFrom_cons (code c : Nat) (rest : List Nat) :
    ∀ i, firstCodeFrom code (c :: rest) (i + 1) = firstCodeFrom (2 * (code + c)) rest i := by
  intro i
  induction i with
  | zero => simp [firstCodeFrom]
  | succ n ih =>
    show 2 * (firstCodeFrom code (c :: rest) (n + 1) + (c :: rest).getD (n + 1) 0) = _
    rw [ih]
    rfl

/-- The running first code is monotone in the bit length. -/
theorem firstCodeFrom_mono (code : Nat) (counts : List Nat) :
    ∀ i k, i ≤ k → firstCodeFrom code counts i ≤ firstCodeFrom code counts k := by
  intro i k
  induction k with
  | zero =>
    intro h
    have : i = 0 := by omega
    rw [this]
  | succ n ih =>
    intro h
    rcases Nat.lt_or_ge i (n + 1) with hlt | hge
    · have step : firstCodeFrom code counts n ≤ firstCodeFrom code counts (n + 1) := by
        show firstCodeFrom code counts n ≤ 2 * (firstCodeFrom code counts n + counts.getD n 0)
        omega
      exact le_trans (ih (by omega)) step
    · have : i = n + 1 := by omega
      rw [this]

/-- Indexing lemma for `generate_codes` from an arbitrary running code: as
long as the final running first code does not overflow `u16`, the `j`-th
emitted code of bit length `i + 1` is the stage's first code plus `j`. -/
theorem generateCodesAux_get (counts : List Nat) :
    ∀ (code : Nat),
      firstCodeFrom code counts counts.length < 65536 →
      ∀ i j, i < counts.length → j < counts.getD i 0 →
        (generateCodesAux code counts).get? ((counts.take i).sum + j) =
          some (firstCodeFrom code counts i + j) := by
  induction counts with
  | nil =>
    intro code hfin i j hi hj
    exact absurd hi (Nat.not_lt_zero i)
  | cons c rest ih =>
    intro code hfin i j hi hj
    have hone : firstCodeFrom code (c :: rest) 1 ≤
        firstCodeFrom code (c :: rest) (c :: rest).length :=
      firstCodeFrom_mono code (c :: rest) 1 (c :: rest).length (by simp)
    have honev : firstCodeFrom code (c :: rest) 1 = 2 * (code + c) := by
      simp [firstCodeFrom]
    have hcc : code + c < 32768 := by
      rw [honev] at hone
      omega
    have hmod1 : (code + c) % 65536 = code + c := Nat.mod_eq_of_lt (by omega)
    cases i with
    | zero =>
      have hjc : j < c := by simpa using hj
      simp only [generateCodesAux, List.take_zero, List.sum_nil, Nat.zero_add]
      rw [List.get?_append (by simpa using hjc)]
      rw [List.get?_map, List.get?_range hjc]
      have : (code + j) % 65536 = code + j := Nat.mod_eq_of_lt (by omega)
      simp [this, firstCodeFrom]
    | succ n =>
      have hn : n < rest.length := by simpa using hi
      have hjr : j < rest.getD n 0 := by simpa using hj
      simp only [generateCodesAux, List.take_succ_cons, List.sum_cons]
      have hix : c + (rest.take n).sum + j = c + ((rest.take n).sum + j) := by omega
      rw [hix, List.get?_append_right (by simp)]
      have hlen : ((List.range c).map (fun j => (code + j) % 65536)).length = c := by simp
      rw [hlen]
      have hdrop : c + ((rest.take n).sum + j) - c = (rest.take n).sum + j := by omega
      rw [hdrop]
      have hnext : (((code + c) % 65536) * 2) % 65536 = 2 * (code + c) := by
        rw [hmod1, Nat.mod_eq_of_lt (by omega)]
        ring
      rw [hnext]
      have hfin2 : firstCodeFrom (2 * (code + c)) rest rest.length < 65536 := by
        rw [← firstCodeFrom_cons]
        simpa using hfin
      rw [ih (2 * (code + c)) hfin2 n j hn hjr, ← firstCodeFrom_cons]

/-- C7 (confirmed): Huffman canonicity.  For every `bitcode_counts` whose
final running first code fits in `u16` (so that no `u16` wrap occurs),
generation starts at 0, the first code of each bit length obeys the spec's
recurrence `first(ℓ) = 2 · (first(ℓ-1) + count(ℓ-1))`, and the `j`-th
generated code of bit length `i + 1` is `firstCode i + j` — codes of the
same bit length are consecutive integers. -/
theorem generate_codes_canonical (counts : List Nat)
    (hfit : firstCode counts counts.length < 65536) :
    firstCode counts 0 = 0 ∧
    (∀ i, firstCode counts (i + 1) = 2 * (firstCode counts i + counts.getD i 0)) ∧
    ∀ i j, i < counts.length → j < counts.getD i 0 →
      (generate_codes counts).get? ((counts.take i).sum + j) =
        some (firstCode counts i + j) := by
  refine ⟨rfl, fun i => rfl, ?_⟩
  intro i j hi hj
  exact generateCodesAux_get counts 0 hfit i j hi hj

/-- Witness for C7 at `bitcode_counts = [1, 2]`: one length-1 code and two
length-2 codes; the second length-2 code (index 2 overall) is
`firstCode 1 + 1 = 3`. -/
theorem generate_codes_canonical_witness :
    firstCode [1, 2] ([1, 2] : List Nat).length < 65536 ∧
    (generate_codes [1, 2]).get? ((([1, 2] : List Nat).take 1).sum + 1) =
      some (firstCode [1, 2] 1 + 1) :=
  ⟨by decide, (generate_codes_canonical [1, 2] (by decide)).2.2 1 1 (by decide) (by decide)⟩

/-- Wrap-around is the identity inside the `i16` range. -/
theorem wrap16_eq_self {x : Int} (h1 : -32768 ≤ x) (h2 : x ≤ 32767) :
    wrap16 x = x := by
  unfold wrap16
  have hmod : (x + 32768) % 65536 = x + 32768 :=
    Int.emod_eq_of_lt (by omega) (by omega)
  omega

/-- C9 (confirmed): sign extension.  For a category `1 ≤ t ≤ 15` and a
`t`-bit raw value `v`, the EXTEND step of `decode_block` leaves `v` alone
when `v ≥ 2^(t-1)` and maps it to `v - (2^t - 1)` otherwise, and the result
always lies in `[-(2^t - 1), 2^t - 1]`. -/
theorem signExtend_spec (t : Nat) (v : Int) (ht1 : 1 ≤ t) (ht15 : t ≤ 15)
    (hv0 : 0 ≤ v) (hvt : v < 2 ^ t) :
    (2 ^ (t - 1) ≤ v → signExtend t v = v) ∧
    (v < 2 ^ (t - 1) → signExtend t v = v - (2 ^ t - 1)) ∧
    -(2 ^ t - 1) ≤ signExtend t v ∧ signExtend t v ≤ 2 ^ t - 1 := by
  have h15 : (2 : Int) ^ 15 = 32768 := by norm_num
  have h14 : (2 : Int) ^ 14 = 16384 := by norm_num
  have hpowt : (2 : Int) ^ t ≤ 2 ^ 15 := pow_le_pow_right (by norm_num) ht15
  have hpowh : (2 : Int) ^ (t - 1) ≤ 2 ^ 14 := pow_le_pow_right (by norm_num) (by omega)
  have hpow0 : (0 : Int) < 2 ^ t := pow_pos (by norm_num) t
  have hpowh0 : (0 : Int) < 2 ^ (t - 1) := pow_pos (by norm_num) (t - 1)
  have hth : i16shl1 ((t + 255) % 256) = 2 ^ (t - 1) := by
    have hmod : (t + 255) % 256 = t - 1 := by omega
    have hm16 : (t - 1) % 16 = t - 1 := Nat.mod_eq_of_lt (by omega)
    have hne : (t - 1) % 16 ≠ 15 := by omega
    rw [hmod]
    unfold i16shl1
    rw [if_neg hne, hm16]
  have hsub : wrap16 (i16shl1 t - 1) = 2 ^ t - 1 := by
    rcases Nat.lt_or_ge t 15 with hlt | hge
    · have hm16 : t % 16 = t := Nat.mod_eq_of_lt (by omega)
      have hne : t % 16 ≠ 15 := by omega
      have hval : i16shl1 t = 2 ^ t := by
        unfold i16shl1
        rw [if_neg hne, hm16]
      rw [hval]
      have hle : (2 : Int) ^ t ≤ 2 ^ 14 := pow_le_pow_right (by norm_num) (by omega)
      exact wrap16_eq_self (by omega) (by omega)
    · have ht : t = 15 := by omega
      subst ht
      have hval : i16shl1 15 = -(2 ^ 15 : Int) := by
        unfold i16shl1
        norm_num
      rw [hval]
      unfold wrap16
      norm_num
  unfold signExtend
  rw [hth, hsub]
  by_cases hc : v < 2 ^ (t - 1)
  · rw [if_pos hc]
    have hfix : wrap16 (v - (2 ^ t - 1)) = v - (2 ^ t - 1) :=
      wrap16_eq_self (by omega) (by omega)
    rw [hfix]
    refine ⟨fun hge => absurd hge (not_le.2 hc), fun _ => rfl, by omega, by omega⟩
  · rw [if_neg hc]
    refine ⟨fun _ => rfl, fun hlt => absurd hlt hc, by omega, by omega⟩

/-- Witness for C9 at category 3, raw value 2 (below `2^2`): the decoded
coefficient is `2 - 7 = -5`. -/
theorem signExtend_spec_witness :
    (1 ≤ 3 ∧ (2 : Int) < 2 ^ 3) ∧ signExtend 3 2 = 2 - (2 ^ 3 - 1) :=
  ⟨⟨by norm_num, by norm_num⟩,
   (signExtend_spec 3 2 (by norm_num) (by norm_num) (by norm_num) (by norm_num)).2.1
     (by norm_num)⟩


/-! ### Outcome invariant scaffolding -/

/-- Nothing is a bad panic when the bad list is empty. -/
theorem avoidsPanics_nil {α : Type} (o : Outcome α) : avoidsPanics [] o = true := by
  cases o <;> rfl

/-- An `ok` value satisfying the invariant. -/
theorem OutProp.ok {α : Type} {bad : List String} {P : α → Prop} {a : α} (h : P a) :
    OutProp bad P (.ok a) :=
  ⟨rfl, fun b hb => by injection hb with hb; rw [← hb]; exact h⟩

/-- A returned error trivially satisfies any invariant. -/
theorem OutProp.err {α : Type} {bad : List String} {P : α → Prop} {e : Err} :
    OutProp bad P (.err e) :=
  ⟨rfl, fun a h => Outcome.noConfusion h⟩

/-- A panic with a label outside the bad list satisfies any invariant. -/
theorem OutProp.panic {α : Type} {bad : List String} {P : α → Prop} {s : String}
    (h : bad.contains s = false) : OutProp bad P (.panic s) :=
  ⟨by show (! bad.contains s) = true; rw [h]; rfl,
   fun a hc => Outcome.noConfusion hc⟩

/-- With no bad labels, any panic satisfies any invariant. -/
theorem OutProp.panic_nil {α : Type} {P : α → Prop} {s : String} :
    OutProp [] P (.panic s) :=
  ⟨rfl, fun a hc => Outcome.noConfusion hc⟩

/-- With no bad labels and a trivial invariant, anything qualifies. -/
theorem OutProp.nil_trivial {α : Type} (o : Outcome α) :
    OutProp [] (fun _ => True) o :=
  ⟨avoidsPanics_nil o, fun a hc => trivial⟩

/-- Sequencing preserves the invariant. -/
theorem OutProp.bind {α β : Type} {bad : List String} {P : α → Prop} {Q : β → Prop}
    {x : Outcome α} {g : α → Outcome β}
    (hx : OutProp bad P x) (hg : ∀ a, P a → OutProp bad Q (g a)) :
    OutProp bad Q (x.bind g) := by
  cases x with
  | ok a => exact hg a (hx.2 a rfl)
  | err e => exact OutProp.err
  | panic s => exact ⟨hx.1, fun a h => Outcome.noConfusion h⟩

/-- `foldlM` preserves the invariant when every step does. -/
theorem OutProp.foldlM {α σ : Type} {bad : List String} {P : σ → Prop} :
    ∀ (l : List α) (f : σ → α → Outcome σ) (s : σ),
      (∀ s a, a ∈ l → P s → OutProp bad P (f s a)) → P s →
      OutProp bad P (l.foldlM f s) := by
  intro l
  induction l with
  | nil =>
    intro f s hf hP
    exact OutProp.ok hP
  | cons a l ih =>
    intro f s hf hP
    show OutProp bad P (Outcome.bind (f s a) fun t => List.foldlM f t l)
    exact OutProp.bind (hf s a (List.mem_cons_self a l) hP)
      (fun t ht => ih f t (fun u b hb => hf u b (List.mem_cons_of_mem a hb)) ht)

/-! ### C8: bitmap dimensions -/

/-- Storing one byte preserves the buffer length. -/
theorem setBitmapByte_length {N : Nat} (data : List Nat) (i v : Nat)
    (h : data.length = N) :
    OutProp [] (fun d : List Nat => d.length = N) (setBitmapByte data i v) := by
  unfold setBitmapByte
  by_cases hi : i < data.length
  · rw [if_pos hi]
    exact OutProp.ok (by simp [h])
  · rw [if_neg hi]
    exact OutProp.panic_nil

/-- Writing one pixel preserves the buffer length. -/
theorem writePixel_length {N : Nat} (ycbcrFn : Int × Int × Int → Nat × Nat × Nat)
    (blocks : List (List Macroblock)) (header : HeaderInfo) (channels x y : Nat)
    (data : List Nat) (h : data.length = N) :
    OutProp [] (fun d : List Nat => d.length = N)
      (writePixel ycbcrFn blocks header channels x y data) := by
  unfold writePixel
  by_cases hdiv : 8 * header.mcu_info.max_xy_sampling_factor.2 = 0 ∨
      8 * header.mcu_info.max_xy_sampling_factor.1 = 0
  · rw [if_pos hdiv]
    exact OutProp.panic_nil
  · rw [if_neg hdiv]
    cases hblk : (blocks.get? (y / (8 * header.mcu_info.max_xy_sampling_factor.2))).bind
        (fun row => row.get? (x / (8 * header.mcu_info.max_xy_sampling_factor.1))) with
    | none => exact OutProp.panic_nil
    | some block =>
      refine OutProp.bind (OutProp.nil_trivial _) (fun lum _ => ?_)
      refine OutProp.bind (OutProp.nil_trivial _) (fun cbv _ => ?_)
      refine OutProp.bind (OutProp.nil_trivial _) (fun crv _ => ?_)
      refine OutProp.bind (setBitmapByte_length data _ _ h) (fun d1 h1 => ?_)
      refine OutProp.bind (setBitmapByte_length d1 _ _ h1) (fun d2 h2 => ?_)
      exact setBitmapByte_length d2 _ _ h2

/-- Core of C8: when `blocks_to_bitmap` returns a bitmap, its `size` is the
unpadded image size and its buffer length is `width * height * channels`. -/
theorem blocks_to_bitmap_ok (ycbcrFn : Int × Int × Int → Nat × Nat × Nat)
    (blocks : List (List Macroblock)) (header : HeaderInfo) (bm : Bitmap)
    (h : blocks_to_bitmap ycbcrFn blocks header = .ok bm) :
    bm.channels = header.components.length % 256 ∧
    bm.size = header.frame_info.image_size ∧
    bm.data.length = header.frame_info.image_size.1 *
      header.frame_info.image_size.2 * (header.components.length % 256) := by
  unfold blocks_to_bitmap at h
  cases hres : (List.range header.frame_info.image_size.2).foldlM
      (fun data y =>
        (List.range header.frame_info.image_size.1).foldlM
          (fun data x => writePixel ycbcrFn blocks header
            (header.components.length % 256) x y data)
          data)
      (List.replicate (header.frame_info.image_size.1 *
        header.frame_info.image_size.2 * (header.components.length % 256)) 0) with
  | err e => rw [hres] at h; exact absurd h (by simp)
  | panic s => rw [hres] at h; exact absurd h (by simp)
  | ok data =>
    rw [hres] at h
    have hlen : data.length = header.frame_info.image_size.1 *
        header.frame_info.image_size.2 * (header.components.length % 256) := by
      have hout := @OutProp.foldlM Nat (List Nat) []
        (fun d : List Nat => d.length = header.frame_info.image_size.1 *
          header.frame_info.image_size.2 * (header.components.length % 256))
        (List.range header.frame_info.image_size.2)
        (fun data y =>
          (List.range header.frame_info.image_size.1).foldlM
            (fun data x => writePixel ycbcrFn blocks header
              (header.components.length % 256) x y data)
            data)
        (List.replicate (header.frame_info.image_size.1 *
          header.frame_info.image_size.2 * (header.components.length % 256)) 0)
        (fun d y _ hd => @OutProp.foldlM Nat (List Nat) [] _
          (List.range header.frame_info.image_size.1)
          (fun data x => writePixel ycbcrFn blocks header
            (header.components.length % 256) x y data)
          d (fun d2 x _ hd2 => writePixel_length ycbcrFn blocks header
            (header.components.length % 256) x y d2 hd2) hd)
        (by simp)
      exact hout.2 data hres
    injection h with h
    rw [← h]
    exact ⟨rfl, rfl, hlen⟩

/-- C8 (confirmed): for every header with three components (the supported
subset) and every scan whose decode succeeds, `read_scan` returns a Bitmap
whose `size` is exactly the unpadded image dimensions `(W, H)` (even when the
padded size is larger) and whose buffer holds exactly `W * H * 3` bytes. -/
theorem readScan_bitmap_dims (idctFn : List (List Int) → Nat → Nat → Nat → Nat → Int)
    (ycbcrFn : Int × Int × Int → Nat × Nat × Nat) (header : HeaderInfo)
    (scanBytes : List Nat) (bm : Bitmap)
    (hch : header.components.length = 3)
    (h : readScan idctFn ycbcrFn header scanBytes = .ok bm) :
    bm.size = header.frame_info.image_size ∧
    bm.data.length = header.frame_info.image_size.1 *
      header.frame_info.image_size.2 * 3 := by
  unfold readScan at h
  cases hhd : read_huffman_data scanBytes with
  | error e => rw [hhd] at h; exact absurd h (by simp)
  | ok huffman_data =>
    rw [hhd] at h
    dsimp only at h
    cases hfold : (List.range header.mcu_info.mcu_padded_dimensions.2).foldlM
        (fun st vert =>
          (List.range header.mcu_info.mcu_padded_dimensions.1).foldlM
            (fun st horiz =>
              match decode_block idctFn header st.2.1 st.2.2 with
              | .err e => Outcome.err e
              | .panic s => Outcome.panic s
              | .ok (mb, dcp, bs) => Outcome.ok (set2 st.1 vert horiz mb, dcp, bs))
            st)
        (List.replicate header.mcu_info.mcu_padded_dimensions.2
          (List.replicate header.mcu_info.mcu_padded_dimensions.1
            (Macroblock.new header.mcu_info.max_xy_sampling_factor)),
         List.replicate (header.scan_info.components.length + 1) (0 : Int),
         Bitstream.new huffman_data) with
    | err e => rw [hfold] at h; exact absurd h (by simp)
    | panic s => rw [hfold] at h; exact absurd h (by simp)
    | ok st =>
      rw [hfold] at h
      obtain ⟨hc, hsz, hlen⟩ := blocks_to_bitmap_ok ycbcrFn st.1 header bm h
      refine ⟨hsz, ?_⟩
      rw [hlen, hch]

/-- Witness for C8: on the 1x1 sample header with a trivial scan the decoder
returns the `1 x 1` bitmap with a 3-byte buffer, and the theorem's
conclusions evaluate as stated. -/
theorem readScan_bitmap_dims_witness :
    sampleHeader3.components.length = 3 ∧
    readScan (fun _ _ _ _ _ => 0) (fun _ => (0, 0, 0)) sampleHeader3
        [0x00, 0xFF, 0xD9] = .ok ⟨3, (1, 1), [0, 0, 0]⟩ ∧
    (⟨3, (1, 1), [0, 0, 0]⟩ : Bitmap).size = sampleHeader3.frame_info.image_size ∧
    (⟨3, (1, 1), [0, 0, 0]⟩ : Bitmap).data.length =
      sampleHeader3.frame_info.image_size.1 *
        sampleHeader3.frame_info.image_size.2 * 3 :=
  ⟨rfl, by decide,
   (readScan_bitmap_dims (fun _ _ _ _ _ => 0) (fun _ => (0, 0, 0)) sampleHeader3
      [0x00, 0xFF, 0xD9] ⟨3, (1, 1), [0, 0, 0]⟩ rfl (by decide)).1,
   (readScan_bitmap_dims (fun _ _ _ _ _ => 0) (fun _ => (0, 0, 0)) sampleHeader3
      [0x00, 0xFF, 0xD9] ⟨3, (1, 1), [0, 0, 0]⟩ rfl (by decide)).2⟩

/-! ### C10: panic labels reachable from block decoding -/

/-- A panic that merely propagates an earlier benign outcome stays benign. -/
theorem OutProp.of_panic_propagate {α β : Type} {bad : List String} {P : β → Prop}
    {x : Outcome α} {s : String} (hx : avoidsPanics bad x = true)
    (h : x = .panic s) : OutProp bad P (.panic s) := by
  rw [h] at hx
  exact ⟨hx, fun a hc => Outcome.noConfusion hc⟩

/-- The bit-reading loop never reaches a selector or predictor panic. -/
theorem readBitsLoop_prop : ∀ (bits value : Nat) (bs : Bitstream),
    OutProp selectorPanics (fun _ : Nat × Bitstream => True) (readBitsLoop bits value bs) := by
  intro bits
  induction bits with
  | zero => intro value bs; exact OutProp.ok trivial
  | succ n ih =>
    intro value bs
    simp only [readBitsLoop]
    cases bs.data.get? bs.byte_cursor with
    | none => exact OutProp.panic (by decide)
    | some current_byte =>
      dsimp only
      by_cases h8 : bs.bit_cursor + 1 = 8
      · rw [if_pos h8]
        by_cases hend : bs.byte_cursor + 1 > bs.data.length
        · rw [if_pos hend]; exact OutProp.err
        · rw [if_neg hend]; exact ih _ _
      · rw [if_neg h8]; exact ih _ _

/-- `read_bits` never reaches a selector or predictor panic. -/
theorem readBits_prop (bits : Nat) (bs : Bitstream) :
    OutProp selectorPanics (fun _ : Nat × Bitstream => True) (readBits bits bs) := by
  unfold readBits
  by_cases h64 : bits > 64
  · rw [if_pos h64]; exact OutProp.err
  · rw [if_neg h64]
    by_cases hend : bs.byte_cursor ≥ bs.data.length
    · rw [if_pos hend]; exact OutProp.err
    · rw [if_neg hend]; exact readBitsLoop_prop bits 0 bs

/-- The code-scanning loop never reaches a selector or predictor panic. -/
theorem scanCodes_prop (codes : List Nat) (code : Nat) :
    ∀ (count code_cursor : Nat),
      OutProp selectorPanics (fun _ : Option Nat × Nat => True)
        (scanCodes codes code count code_cursor) := by
  intro count
  induction count with
  | zero => intro code_cursor; exact OutProp.ok trivial
  | succ n ih =>
    intro code_cursor
    simp only [scanCodes]
    cases codes.get? code_cursor with
    | none => exact OutProp.panic (by decide)
    | some c =>
      dsimp only
      by_cases hc : code = c
      · rw [if_pos hc]; exact OutProp.ok trivial
      · rw [if_neg hc]; exact ih _

/-- Huffman decoding never reaches a selector or predictor panic. -/
theorem decodeNextAux_prop (table : HuffmanTable) :
    ∀ (l : List Nat) (code code_cursor : Nat) (bs : Bitstream),
      OutProp selectorPanics (fun _ : (Nat × Nat) × Bitstream => True)
        (decodeNextAux table l code code_cursor bs) := by
  intro l
  induction l with
  | nil => intro code code_cursor bs; exact OutProp.err
  | cons i rest ih =>
    intro code code_cursor bs
    simp only [decodeNextAux]
    cases hx : readBits 1 bs with
    | err e => exact OutProp.err
    | panic s => exact OutProp.of_panic_propagate (readBits_prop 1 bs).1 hx
    | ok v =>
      obtain ⟨bit, bs'⟩ := v
      dsimp only
      cases hs : scanCodes table.codes (code * 2 + bit)
          (table.bitcode_counts.getD i 0) code_cursor with
      | err e => exact OutProp.err
      | panic s =>
        exact OutProp.of_panic_propagate
          (scanCodes_prop table.codes (code * 2 + bit)
            (table.bitcode_counts.getD i 0) code_cursor).1 hs
      | ok w =>
        obtain ⟨opt, cursor'⟩ := w
        cases opt with
        | some j =>
          dsimp only
          cases table.symbols.get? j with
          | none => exact OutProp.panic (by decide)
          | some sym => exact OutProp.ok trivial
        | none => exact ih _ _ _

/-- `decode_next_value` never reaches a selector or predictor panic. -/
theorem decodeNextValue_prop (table : HuffmanTable) (bs : Bitstream) :
    OutProp selectorPanics (fun _ : (Nat × Nat) × Bitstream => True)
      (decodeNextValue table bs) :=
  decodeNextAux_prop table (List.range 16) 0 0 bs

/-- The AC coefficient loop never reaches a selector or predictor panic. -/
theorem acCoefficientLoop_prop (ac_table : HuffmanTable) :
    ∀ (fuel k : Nat) (dct : List Int) (bs : Bitstream),
      OutProp selectorPanics (fun _ : List Int × Bitstream => True)
        (acCoefficientLoop ac_table fuel k dct bs) := by
  intro fuel
  induction fuel with
  | zero => intro k dct bs; exact OutProp.err
  | succ n ih =>
    intro k dct bs
    simp only [acCoefficientLoop]
    by_cases hk : k ≠ 63
    · rw [if_pos hk]
      cases hd : decodeNextValue ac_table bs with
      | err e => exact OutProp.err
      | panic s => exact OutProp.of_panic_propagate (decodeNextValue_prop ac_table bs).1 hd
      | ok v =>
        obtain ⟨⟨huffman_val, i⟩, bs'⟩ := v
        dsimp only
        by_cases h0 : huffman_val = 0
        · rw [if_pos h0]; exact OutProp.ok trivial
        · rw [if_neg h0]
          by_cases hF : huffman_val = 0xF0
          · rw [if_pos hF]; exact ih _ _ _
          · rw [if_neg hF]
            by_cases hover : ((k + 1) % 256 + huffman_val / 16) % 256 > 64
            · rw [if_pos hover]; exact OutProp.err
            · rw [if_neg hover]
              cases hr : readBits (huffman_val % 16) bs' with
              | err e => exact OutProp.err
              | panic s =>
                exact OutProp.of_panic_propagate (readBits_prop (huffman_val % 16) bs').1 hr
              | ok w =>
                obtain ⟨raw, bs''⟩ := w
                dsimp only
                by_cases hlen : ((k + 1) % 256 + huffman_val / 16) % 256 < dct.length
                · rw [if_pos hlen]; exact ih _ _ _
                · rw [if_neg hlen]; exact OutProp.panic (by decide)
    · rw [if_neg hk]; exact OutProp.ok trivial

/-- `readGrid` never reaches a selector or predictor panic. -/
theorem readGrid_prop (g : List (List Int)) (r c : Nat) :
    OutProp selectorPanics (fun _ : Int => True) (readGrid g r c) := by
  unfold readGrid
  cases g.get? r with
  | none => exact OutProp.panic (by decide)
  | some row =>
    dsimp only
    cases row.get? c with
    | none => exact OutProp.panic (by decide)
    | some v => exact OutProp.ok trivial

/-- `writeGrid` never reaches a selector or predictor panic. -/
theorem writeGrid_prop (g : List (List Int)) (r c : Nat) (v : Int) :
    OutProp selectorPanics (fun _ : List (List Int) => True) (writeGrid g r c v) := by
  unfold writeGrid
  cases g.get? r with
  | none => exact OutProp.panic (by decide)
  | some row =>
    dsimp only
    by_cases hc : c < row.length
    · rw [if_pos hc]; exact OutProp.ok trivial
    · rw [if_neg hc]; exact OutProp.panic (by decide)

/-- Dequantization never reaches a selector or predictor panic. -/
theorem dequantUnzigzag_prop (dct : List Int) (qtable : List (List Nat))
    (base_y base_x : Nat) (g : List (List Int)) :
    OutProp selectorPanics (fun _ : List (List Int) => True)
      (dequantUnzigzag dct qtable base_y base_x g) :=
  OutProp.foldlM (List.range 64) _ g
    (fun s a _ _ => writeGrid_prop s _ _ _) trivial

/-- The IDCT write-back never reaches a selector or predictor panic. -/
theorem idctStep_prop (idctFn : List (List Int) → Nat → Nat → Nat → Nat → Int)
    (base_y base_x : Nat) (g : List (List Int)) :
    OutProp selectorPanics (fun _ : List (List Int) => True)
      (idctStep idctFn base_y base_x g) :=
  OutProp.foldlM (List.range 8) _ g
    (fun s a _ _ =>
      OutProp.foldlM (List.range 8) _ s
        (fun s2 a2 _ _ => writeGrid_prop s2 _ _ _) trivial)
    trivial

/-- The upsampling stretch never reaches a selector or predictor panic. -/
theorem stretchComponent_prop (max_xy xy : Nat × Nat) (g : List (List Int)) :
    OutProp selectorPanics (fun _ : List (List Int) => True)
      (stretchComponent max_xy xy g) := by
  unfold stretchComponent
  by_cases hz : xy.1 = 0 ∨ xy.2 = 0
  · rw [if_pos hz]; exact OutProp.panic (by decide)
  · rw [if_neg hz]
    by_cases hr : max_xy.1 / xy.1 > 1 ∨ max_xy.2 / xy.2 > 1
    · rw [if_pos hr]
      by_cases hz2 : max_xy.1 / xy.1 = 0 ∨ max_xy.2 / xy.2 = 0
      · rw [if_pos hz2]; exact OutProp.panic (by decide)
      · rw [if_neg hz2]
        refine OutProp.foldlM _ _ g (fun s a _ _ => ?_) trivial
        refine OutProp.foldlM _ _ s (fun s2 a2 _ _ => ?_) trivial
        cases hread : readGrid g (a / (max_xy.2 / xy.2)) (a2 / (max_xy.1 / xy.1)) with
        | err e => exact OutProp.err
        | panic s => exact OutProp.of_panic_propagate (readGrid_prop g _ _).1 hread
        | ok v => exact writeGrid_prop s2 _ _ _
    · rw [if_neg hr]; exact OutProp.ok trivial

/-- One data unit preserves the predictor-array length and reaches neither
the selector panic nor the predictor-index panic, provided the selector
indexes inside the predictor array. -/
theorem decodeDataUnit_prop (idctFn : List (List Int) → Nat → Nat → Nat → Nat → Int)
    (dc_table ac_table : HuffmanTable) (qtable : List (List Nat))
    (selector base_y base_x : Nat) (component_block : List (List Int))
    (dc_predictions : List Int) (bs : Bitstream) (L : Nat)
    (hL : dc_predictions.length = L) (hsel : selector < L) :
    OutProp selectorPanics
      (fun st : List (List Int) × List Int × Bitstream => st.2.1.length = L)
      (decodeDataUnit idctFn dc_table ac_table qtable selector base_y base_x
        component_block dc_predictions bs) := by
  unfold decodeDataUnit
  refine OutProp.bind (decodeNextValue_prop dc_table bs) (fun dcv _ => ?_)
  refine OutProp.bind (readBits_prop dcv.1.1 dcv.2) (fun rawv _ => ?_)
  cases hget : dc_predictions.get? selector with
  | none =>
    have := List.get?_eq_none.mp hget
    omega
  | some pred =>
    dsimp only
    refine OutProp.bind (acCoefficientLoop_prop ac_table _ _ _ _) (fun acv _ => ?_)
    refine OutProp.bind (dequantUnzigzag_prop _ _ _ _ _) (fun cb1 _ => ?_)
    refine OutProp.bind (idctStep_prop _ _ _ _) (fun cb2 _ => ?_)
    exact OutProp.ok (by simpa using hL)

/-- One component of `decode_block` preserves the predictor-array length and
reaches neither the selector panic nor the predictor-index panic, provided
its selector is 1, 2 or 3 and indexes inside the predictor array. -/
theorem decodeComponent_prop (idctFn : List (List Int) → Nat → Nat → Nat → Nat → Int)
    (header : HeaderInfo) (component : Component) (block : Macroblock)
    (dc_predictions : List Int) (bs : Bitstream) (L : Nat)
    (hL : dc_predictions.length = L)
    (hsel3 : component.scan.selector = 1 ∨ component.scan.selector = 2 ∨
      component.scan.selector = 3)
    (hselL : component.scan.selector < L) :
    OutProp selectorPanics
      (fun st : Macroblock × List Int × Bitstream => st.2.1.length = L)
      (decodeComponent idctFn header component block dc_predictions bs) := by
  unfold decodeComponent
  cases header.dc_huff_tables.lookup component.scan.dc_table with
  | none => exact OutProp.panic (by decide)
  | some dc_table =>
    dsimp only
    cases header.ac_huff_tables.lookup component.scan.ac_table with
    | none => exact OutProp.panic (by decide)
    | some ac_table =>
      dsimp only
      cases header.quant_tables.lookup component.frame.qtable_id with
      | none => exact OutProp.panic (by decide)
      | some qt =>
        dsimp only
        have main : ∀ sel : Nat, sel < L → ∀ plane : List (List Int),
            OutProp selectorPanics
              (fun st : Macroblock × List Int × Bitstream => st.2.1.length = L)
              (Outcome.bind
                ((List.range component.frame.xy_sampling_factor.2).foldlM
                  (fun st mcu_row =>
                    (List.range component.frame.xy_sampling_factor.1).foldlM
                      (fun st mcu_col =>
                        decodeDataUnit idctFn dc_table ac_table qt.table
                          sel (mcu_row * 8) (mcu_col * 8)
                          st.1 st.2.1 st.2.2)
                      st)
                  (plane, dc_predictions, bs))
                fun st =>
                Outcome.bind
                  (stretchComponent header.mcu_info.max_xy_sampling_factor
                    component.frame.xy_sampling_factor st.1)
                  fun stretched =>
                  .ok (block.set_component sel stretched,
                       st.2.1, st.2.2)) := by
          intro sel hselL2 plane
          refine OutProp.bind
            (@OutProp.foldlM Nat (List (List Int) × List Int × Bitstream)
              selectorPanics (fun st => st.2.1.length = L)
              (List.range component.frame.xy_sampling_factor.2) _
              (plane, dc_predictions, bs)
              (fun st mcu_row _ hst =>
                @OutProp.foldlM Nat (List (List Int) × List Int × Bitstream)
                  selectorPanics (fun st => st.2.1.length = L)
                  (List.range component.frame.xy_sampling_factor.1) _ st
                  (fun st2 mcu_col _ hst2 =>
                    decodeDataUnit_prop idctFn dc_table ac_table qt.table
                      sel (mcu_row * 8) (mcu_col * 8)
                      st2.1 st2.2.1 st2.2.2 L hst2 hselL2)
                  hst)
              hL)
            (fun st hst => ?_)
          refine OutProp.bind (stretchComponent_prop _ _ _) (fun stretched _ => ?_)
          exact OutProp.ok hst
        rcases hsel3 with h | h | h <;>
          rw [h] <;> dsimp only [Macroblock.get_component] <;>
            exact main _ (h ▸ hselL) _

/-- `setBitmapByte` reaches neither C10 panic site. -/
theorem setBitmapByte_prop (data : List Nat) (i v : Nat) :
    OutProp selectorPanics (fun _ : List Nat => True) (setBitmapByte data i v) := by
  unfold setBitmapByte
  by_cases h : i < data.length
  · rw [if_pos h]; exact OutProp.ok trivial
  · rw [if_neg h]; exact OutProp.panic (by decide)

/-- `writePixel` reaches neither C10 panic site: its `get_component` calls
use the constant selectors 1, 2 and 3. -/
theorem writePixel_prop (ycbcrFn : Int × Int × Int → Nat × Nat × Nat)
    (blocks : List (List Macroblock)) (header : HeaderInfo) (channels x y : Nat)
    (data : List Nat) :
    OutProp selectorPanics (fun _ : List Nat => True)
      (writePixel ycbcrFn blocks header channels x y data) := by
  unfold writePixel
  by_cases hdiv : 8 * header.mcu_info.max_xy_sampling_factor.2 = 0 ∨
      8 * header.mcu_info.max_xy_sampling_factor.1 = 0
  · rw [if_pos hdiv]; exact OutProp.panic (by decide)
  · rw [if_neg hdiv]
    cases (blocks.get? (y / (8 * header.mcu_info.max_xy_sampling_factor.2))).bind
        (fun row => row.get? (x / (8 * header.mcu_info.max_xy_sampling_factor.1))) with
    | none => exact OutProp.panic (by decide)
    | some block =>
      dsimp only [Macroblock.get_component]
      refine OutProp.bind (readGrid_prop _ _ _) (fun lum _ => ?_)
      refine OutProp.bind (readGrid_prop _ _ _) (fun cbv _ => ?_)
      refine OutProp.bind (readGrid_prop _ _ _) (fun crv _ => ?_)
      refine OutProp.bind (setBitmapByte_prop _ _ _) (fun d1 _ => ?_)
      refine OutProp.bind (setBitmapByte_prop _ _ _) (fun d2 _ => ?_)
      exact setBitmapByte_prop _ _ _

/-- `blocks_to_bitmap` reaches neither C10 panic site. -/
theorem blocks_to_bitmap_prop (ycbcrFn : Int × Int × Int → Nat × Nat × Nat)
    (blocks : List (List Macroblock)) (header : HeaderInfo) :
    avoidsPanics selectorPanics (blocks_to_bitmap ycbcrFn blocks header) = true := by
  unfold blocks_to_bitmap
  have hfold := @OutProp.foldlM Nat (List Nat) selectorPanics (fun _ => True)
    (List.range header.frame_info.image_size.2)
    (fun data y =>
      (List.range header.frame_info.image_size.1).foldlM
        (fun data x => writePixel ycbcrFn blocks header
          (header.components.length % 256) x y data)
        data)
    (List.replicate (header.frame_info.image_size.1 *
      header.frame_info.image_size.2 * (header.components.length % 256)) 0)
    (fun d y _ _ => @OutProp.foldlM Nat (List Nat) selectorPanics (fun _ => True)
      (List.range header.frame_info.image_size.1)
      (fun data x => writePixel ycbcrFn blocks header
        (header.components.length % 256) x y data)
      d (fun d2 x _ _ => writePixel_prop ycbcrFn blocks header
        (header.components.length % 256) x y d2) trivial)
    trivial
  cases hres : (List.range header.frame_info.image_size.2).foldlM
      (fun data y =>
        (List.range header.frame_info.image_size.1).foldlM
          (fun data x => writePixel ycbcrFn blocks header
            (header.components.length % 256) x y data)
          data)
      (List.replicate (header.frame_info.image_size.1 *
        header.frame_info.image_size.2 * (header.components.length % 256)) 0) with
  | err e => rfl
  | panic s => rw [hres] at hfold; exact hfold.1
  | ok data => rfl

/-- C10 counterexample: a scan that declares a single component with
selector 3 satisfies the claim's precondition (3 is in {1,2,3}), yet the
decoder panics on the out-of-bounds `dc_predictions[3]` access, because
`read_scan` sizes the predictor array to the number of scan components plus
one (here 2). -/
theorem dc_predictions_oob_counterexample :
    readScan (fun _ _ _ _ _ => 0) (fun _ => (0, 0, 0)) (selectorHeader 3)
      [0x00, 0xFF, 0xD9] = .panic "index out of bounds: dc_predictions" := by
  decide

/-- C10 amended: (1) when every scan-component selector is in {1,2,3} and
the predictor array has length 4 (as `read_scan` allocates for the
three-component scans the decoder supports), `decode_block` can reach
neither the `panic!` arm of `get_component` nor an out-of-bounds
`dc_predictions` access; (2) `blocks_to_bitmap` never reaches them (its
selectors are the constants 1, 2, 3); (3) for a scan declaring any selector
outside {1,2,3}, decoding panics with the `get_component` panic instead of
returning an `Error`. -/
theorem get_component_dispatch_amended :
    (∀ (idctFn : List (List Int) → Nat → Nat → Nat → Nat → Int)
       (header : HeaderInfo) (dcPred : List Int) (bs : Bitstream),
       (∀ c ∈ header.components,
         c.scan.selector = 1 ∨ c.scan.selector = 2 ∨ c.scan.selector = 3) →
       dcPred.length = 4 →
       avoidsPanics selectorPanics (decode_block idctFn header dcPred bs) = true) ∧
    (∀ (ycbcrFn : Int × Int × Int → Nat × Nat × Nat)
       (blocks : List (List Macroblock)) (header : HeaderInfo),
       avoidsPanics selectorPanics (blocks_to_bitmap ycbcrFn blocks header) = true) ∧
    (∀ s : Nat, s ≠ 1 → s ≠ 2 → s ≠ 3 →
       readScan (fun _ _ _ _ _ => 0) (fun _ => (0, 0, 0)) (selectorHeader s)
         [0x00, 0xFF, 0xD9] = .panic "Invalid component selector") := by
  refine ⟨?_, ?_, ?_⟩
  · intro idctFn header dcPred bs hsel hlen
    exact (@OutProp.foldlM Component (Macroblock × List Int × Bitstream)
      selectorPanics (fun st => st.2.1.length = 4) header.components _
      (Macroblock.new header.mcu_info.max_xy_sampling_factor, dcPred, bs)
      (fun st c hc hst =>
        decodeComponent_prop idctFn header c st.1 st.2.1 st.2.2 4 hst
          (hsel c hc)
          (by rcases hsel c hc with h | h | h <;> omega))
      hlen).1
  · exact blocks_to_bitmap_prop
  · exact fun s h1 h2 h3 =>
      match s, h1, h2, h3 with
      | 0, _, _, _ => rfl
      | 1, h, _, _ => absurd rfl h
      | 2, _, h, _ => absurd rfl h
      | 3, _, _, h => absurd rfl h
      | (n + 4), _, _, _ => rfl

/-- Witness for C10: the three-component sample header satisfies the
precondition, and `decode_block` on it avoids both panic sites; selector 5
hits the `get_component` panic. -/
theorem get_component_dispatch_witness :
    avoidsPanics selectorPanics
      (decode_block (fun _ _ _ _ _ => 0) sampleHeader3 (List.replicate 4 0)
        (Bitstream.new [0x00])) = true ∧
    readScan (fun _ _ _ _ _ => 0) (fun _ => (0, 0, 0)) (selectorHeader 5)
      [0x00, 0xFF, 0xD9] = .panic "Invalid component selector" :=
  ⟨get_component_dispatch_amended.1 (fun _ _ _ _ _ => 0) sampleHeader3
      (List.replicate 4 0) (Bitstream.new [0x00]) (by decide) (by decide),
   get_component_dispatch_amended.2.2 5 (by decide) (by decide) (by decide)⟩

/-- C1 (code_bug): the AC loop's overflow check is `k > 64`, not `k > 63`.
With three ZRL symbols and then a (run 15, size 1) symbol, `k` reaches
exactly 64: the check passes and the loop panics writing
`dct_coefficients[64]` instead of failing `Malformed`.  With four ZRL
symbols first, `k` reaches 80 and the loop does return the `Malformed` run
overflow error. -/
theorem ac_run_overflow_checks_64 :
    acCoefficientLoop zrlAcTable 17 0 (List.replicate 64 0)
      (Bitstream.new [0x01, 0x80]) =
      .panic "index out of bounds: dct_coefficients" ∧
    acCoefficientLoop zrlAcTable 17 0 (List.replicate 64 0)
      (Bitstream.new [0x00, 0x40]) =
      .err (.malformed "Run length exceeds max K of 64") :=
  ⟨by decide, by decide⟩

/-- C3 (code_bug): a complete JPEG input whose scan references quantization
and Huffman tables that were never defined parses successfully (the header
parser performs no table-presence check at SOS), and decoding then panics on
the `.unwrap()` of the missing table in `decode_block` instead of returning
a `Malformed` error. -/
theorem decode_missing_tables_panics :
    decode (fun _ _ _ _ _ => 0) (fun _ => (0, 0, 0)) missingTableBytes =
      .panic "called Option::unwrap on a None value" := by
  decide

end ImageDecoder
